import Mathlib

/-!
Verification development for the `claude-sdk-rust` repository.

This file gives a shallow embedding of the control-protocol orchestrator
(`src/internal/query.rs`) and the subprocess transport
(`src/transport/subprocess_cli.rs`), together with theorems settling the
behavioural claims about them.

Modelling conventions:
* `serde_json::Value` is modelled by the inductive `Json` below; `serde_json::Map`
  (a map from strings to values) is modelled as an association list, with
  first-match lookup and replace-or-append insertion.  JSON numbers are modelled
  as integers (no claim touches non-integral numeric payloads).
* Asynchronous effects are made explicit: the background stdout task is a
  function from the child's output reads and exit status to the emitted channel
  items plus the stored exit error; awaiting a oneshot completion or a timeout is
  an explicit `AwaitOutcome` argument.
* Rust byte lengths of (ASCII) strings are modelled by character counts.
* `BufReader::read_line` followed by `buffer.split('\n')` is modelled by
  presenting each successful read directly as its list of fragments.
-/

namespace ClaudeSdk

/-- Model of `serde_json::Value`. -/
inductive Json where
  | null
  | bool (b : Bool)
  | num (n : Int)
  | str (s : String)
  | arr (items : List Json)
  | obj (fields : List (String × Json))

/-- First-match lookup in an association list, as `serde_json::Map::get`. -/
def lookupKey {α : Type} (key : String) : List (String × α) → Option α
  | [] => none
  | (k, v) :: rest => if k = key then some v else lookupKey key rest

/-- Remove the entry for `key` (first match), as `HashMap::remove`. -/
def removeKey {α : Type} (key : String) : List (String × α) → List (String × α)
  | [] => []
  | (k, v) :: rest => if k = key then rest else (k, v) :: removeKey key rest

/-- Replace-or-append insertion, as `serde_json::Map::insert`. -/
def insertKey {α : Type} (key : String) (val : α) : List (String × α) → List (String × α)
  | [] => [(key, val)]
  | (k, v) :: rest => if k = key then (k, val) :: rest else (k, v) :: insertKey key val rest

/-- `Value::get` on an object (`None` on any other value). -/
def Json.get? : Json → String → Option Json
  | .obj fields, key => lookupKey key fields
  | _, _ => none

/-- `Value::as_str`. -/
def Json.asStr : Json → Option String
  | .str s => some s
  | _ => none

/-- `Value::as_object` (the underlying field list). -/
def Json.asObj : Json → Option (List (String × Json))
  | .obj fields => some fields
  | _ => none

/-- `Value::as_array`. -/
def Json.asArr : Json → Option (List Json)
  | .arr items => some items
  | _ => none

/-- `Value::as_bool`. -/
def Json.asBool : Json → Option Bool
  | .bool b => some b
  | _ => none

/-- `Value::as_i64` (numbers are modelled as integers). -/
def Json.asInt : Json → Option Int
  | .num n => some n
  | _ => none

/-- `raw.get(key).and_then(Value::as_str)`. -/
def jsonGetStr (j : Json) (key : String) : Option String :=
  (j.get? key).bind Json.asStr

/-- Model of `SdkError` (`src/error.rs`), restricted to the variants the
orchestrator and transport construct.  Error-struct constructors that build a
composite message (`ProcessError::new`, `CliJsonDecodeError::new`) are modelled
by the corresponding functions below. -/
inductive SdkError where
  | message (msg : String)
  | cliConnection (msg : String)
  | process (msg : String) (exitCode : Option Int) (stderr : Option String)
  | cliJsonDecode (line : String) (sourceMsg : String)
  | messageParse (msg : String) (data : Option Json)
  | json (msg : String)
  | timeout

/-- `SdkError`'s `Display` rendering (`thiserror` attributes in
`src/error.rs`), used by `err.to_string()` when building error responses. -/
def SdkError.toMessage : SdkError → String
  | .message msg => msg
  | .cliConnection msg => msg
  | .process msg _ _ => msg
  | .cliJsonDecode line _ => "Failed to decode JSON: " ++ ⟨line.data.take 100⟩ ++ "..."
  | .messageParse msg _ => msg
  | .json msg => msg
  | .timeout => "deadline has elapsed"

/-- `ProcessError::new`: appends the exit code (and stderr when present) to the
message. -/
def processErrorNew (message : String) (exitCode : Option Int) (stderr : Option String) :
    SdkError :=
  let message := match exitCode with
    | some code => message ++ " (exit code: " ++ toString code ++ ")"
    | none => message
  let message := match stderr with
    | some s => if s = "" then message else message ++ "\nError output: " ++ s
    | none => message
  SdkError.process message exitCode stderr

/-! ## Subprocess transport: the background stdout task

`spawn_stdout_task` (`src/transport/subprocess_cli.rs:665-767`) reads the child's
stdout line by line, splits each read on newlines, trims each fragment and
accumulates non-empty fragments in `json_buffer`, emitting a decoded frame
whenever the buffer parses as JSON.  The JSON parser itself
(`serde_json::from_str`) is external library code and is passed in as the
`parse` argument. -/

/-- One `read_line` result: an IO failure, or the fragments obtained by
splitting the read contents on newlines. -/
inductive ChunkRead where
  | failed (msg : String)
  | fragments (frags : List String)

/-- Outcome of `child.wait()` once stdout is exhausted. -/
inductive WaitResult where
  | status (success : Bool) (code : Option Int)
  | failure (msg : String)

/-- State of the stdout task: the partial-frame buffer, the items sent on the
frame channel so far (in order), and the stored `exit_error`. -/
structure StdoutAcc where
  jsonBuffer : String
  channel : List (Except SdkError Json)
  exitError : Option SdkError

/-- Rust `str::trim` (whitespace stripping on both sides), implemented
structurally so it reduces on concrete inputs. -/
def rustTrim (s : String) : String :=
  ⟨((s.data.dropWhile Char.isWhitespace).reverse.dropWhile Char.isWhitespace).reverse⟩

/-- The decode error built when the accumulation buffer overflows:
`CliJsonDecodeError::new(buffer, io error "Buffer size .. exceeds limit ..")`. -/
def bufferOverflowError (buffer : String) (maxBufferSize : Nat) : SdkError :=
  SdkError.cliJsonDecode buffer
    ("Buffer size " ++ toString buffer.length ++ " exceeds limit " ++ toString maxBufferSize)

/-- Processing of a single fragment by the stdout task (the body of the
`for fragment in buffer.split('\n')` loop). -/
def processFragment (maxBufferSize : Nat) (parse : String → Option Json)
    (acc : StdoutAcc) (fragmentRaw : String) : StdoutAcc :=
  let fragment := rustTrim fragmentRaw
  if fragment = "" then acc
  else
    let buf := acc.jsonBuffer ++ fragment
    if maxBufferSize < buf.length then
      let e := bufferOverflowError buf maxBufferSize
      { jsonBuffer := "", channel := acc.channel ++ [.error e], exitError := some e }
    else
      match parse buf with
      | some value => { acc with jsonBuffer := "", channel := acc.channel ++ [.ok value] }
      | none => { acc with jsonBuffer := buf }

/-- Once stdout ends, the task awaits process exit; a non-zero status or a wait
failure is stored as the terminal error and also sent on the channel. -/
def finishWait (acc : StdoutAcc) (wait : WaitResult) : StdoutAcc :=
  match wait with
  | .status true _ => acc
  | .status false code =>
      let base := match code with
        | some c => "Command failed with exit code " ++ toString c
        | none => "Command failed with unknown exit status"
      let e := processErrorNew base code none
      { acc with exitError := some e, channel := acc.channel ++ [.error e] }
  | .failure msg =>
      let e := SdkError.cliConnection ("Failed to wait for process: " ++ msg)
      { acc with exitError := some e, channel := acc.channel ++ [.error e] }

/-- The stdout task loop: process reads until EOF (list end) or a read failure,
then (on EOF only) await the process exit. -/
def stdoutLoop (maxBufferSize : Nat) (parse : String → Option Json) (wait : WaitResult) :
    List ChunkRead → StdoutAcc → StdoutAcc
  | [], acc => finishWait acc wait
  | .failed msg :: _, acc =>
      { acc with
        channel := acc.channel ++ [.error (.cliConnection ("Failed to read stdout: " ++ msg))] }
  | .fragments frags :: rest, acc =>
      stdoutLoop maxBufferSize parse wait rest
        (frags.foldl (processFragment maxBufferSize parse) acc)

/-- `spawn_stdout_task`: the complete background task, from the child's output
and exit status to the channel contents and stored exit error. -/
def spawn_stdout_task (maxBufferSize : Nat) (parse : String → Option Json)
    (reads : List ChunkRead) (wait : WaitResult) : StdoutAcc :=
  stdoutLoop maxBufferSize parse wait reads { jsonBuffer := "", channel := [], exitError := none }

/-! ## Subprocess transport: `read`

`SubprocessCliTransport::read` (`subprocess_cli.rs:266-284`) pulls the next
channel item; once the channel is drained it takes (`Option::take`) the stored
exit error, returning it if present and end-of-stream otherwise. -/

/-- Read-side state of the transport: remaining channel items and the stored
exit error. -/
structure TransportReadState where
  channel : List (Except SdkError Json)
  exitError : Option SdkError

/-- Result of one `Transport::read` call: `Ok(Some(frame))`, `Ok(None)`, or an
error. -/
inductive ReadOutcome where
  | ok (frame : Option Json)
  | err (e : SdkError)

/-- One `read` call. -/
def transportRead : TransportReadState → ReadOutcome × TransportReadState
  | ⟨.ok value :: rest, ex⟩ => (.ok (some value), ⟨rest, ex⟩)
  | ⟨.error e :: rest, ex⟩ => (.err e, ⟨rest, ex⟩)
  | ⟨[], some e⟩ => (.err e, ⟨[], none⟩)
  | ⟨[], none⟩ => (.ok none, ⟨[], none⟩)

/-- The first `n` `read` outcomes. -/
def transportReads (n : Nat) (s : TransportReadState) : List ReadOutcome :=
  match n with
  | 0 => []
  | n + 1 =>
      let (o, s') := transportRead s
      o :: transportReads n s'

/-- The read state produced by the stdout task. -/
def readStateOf (acc : StdoutAcc) : TransportReadState :=
  ⟨acc.channel, acc.exitError⟩

/-- Channel items as read outcomes. -/
def channelOutcome : Except SdkError Json → ReadOutcome
  | .ok v => .ok (some v)
  | .error e => .err e

theorem transportReads_drained (k : Nat) :
    transportReads k ⟨[], none⟩ = List.replicate k (.ok none) := by
  induction k with
  | zero => rfl
  | succ k ih => simp [transportReads, transportRead, ih, List.replicate]

/-- C1 (amended): every channel item — including any terminal error the
background task sent on the frame channel — is returned by `read` once, in
order; after the channel is drained, the stored exit error (if any) is returned
exactly once more and cleared, after which every subsequent `read` returns
`Ok(None)`.  Consequently a terminal error that was both sent on the channel
and stored as the exit error is reported by two distinct `read` calls, not one. -/
theorem transport_read_sequence (ch : List (Except SdkError Json)) (ex : Option SdkError)
    (k : Nat) :
    transportReads (ch.length + ex.toList.length + k) ⟨ch, ex⟩
      = ch.map channelOutcome ++ ex.toList.map ReadOutcome.err
          ++ List.replicate k (.ok none) := by
  induction ch with
  | nil =>
      cases ex with
      | none => simpa using transportReads_drained k
      | some e =>
          have : (0 : Nat) + 1 + k = k + 1 := by omega
          simp [this, transportReads, transportRead, transportReads_drained k]
  | cons c rest ih =>
      have : rest.length + 1 + ex.toList.length + k
          = (rest.length + ex.toList.length + k) + 1 := by omega
      cases c with
      | ok v => simpa [transportReads, transportRead, channelOutcome, List.length, this] using ih
      | error e => simpa [transportReads, transportRead, channelOutcome, List.length, this] using ih

/-- C1 counterexample: with a 3-byte buffer limit, child output `"aaaaaa\n"`
and a clean exit, the overflow decode error is the recorded terminal error, yet
the first two `read` calls BOTH return that same error (once from the frame
channel, once from the stored exit error); only the third returns `Ok(None)`.
This refutes the claim that the terminal error is reported exactly once and
that every read after the first report returns `Ok(None)`. -/
theorem transport_read_terminal_error_twice :
    transportReads 3 (readStateOf (spawn_stdout_task 3 (fun _ => none)
        [.fragments ["aaaaaa", ""]] (.status true none)))
      = [.err (bufferOverflowError "aaaaaa" 3), .err (bufferOverflowError "aaaaaa" 3), .ok none]
    ∧ ReadOutcome.err (bufferOverflowError "aaaaaa" 3) ≠ .ok none :=
  ⟨rfl, nofun⟩

/-! ## Frame codec: typed messages (`src/message.rs`) and the message parser
(`src/internal/message_parser.rs`) -/

/-- `TextBlock`. -/
structure TextBlock where
  text : String

/-- `ThinkingBlock`. -/
structure ThinkingBlock where
  thinking : String
  signature : String

/-- `ToolUseBlock`. -/
structure ToolUseBlock where
  id : String
  name : String
  input : List (String × Json)

/-- `ToolResultBlock`. -/
structure ToolResultBlock where
  toolUseId : String
  content : Option Json
  isError : Option Bool

/-- `ContentBlock`. -/
inductive ContentBlock where
  | text (b : TextBlock)
  | thinking (b : ThinkingBlock)
  | toolUse (b : ToolUseBlock)
  | toolResult (b : ToolResultBlock)

/-- `UserMessageContent`. -/
inductive UserMessageContent where
  | text (s : String)
  | blocks (bs : List ContentBlock)

/-- `UserMessage`. -/
structure UserMessage where
  content : UserMessageContent
  parentToolUseId : Option String

/-- `AssistantMessage`. -/
structure AssistantMessage where
  content : List ContentBlock
  model : String
  parentToolUseId : Option String

/-- `SystemMessage`. -/
structure SystemMessage where
  subtype : String
  data : List (String × Json)

/-- `ResultMessage` (`total_cost_usd` is numeric; numbers are modelled as
integers). -/
structure ResultMessage where
  subtype : String
  durationMs : Int
  durationApiMs : Int
  isError : Bool
  numTurns : Int
  sessionId : String
  totalCostUsd : Option Int
  usage : Option (List (String × Json))
  result : Option String

/-- `StreamEvent`. -/
structure StreamEvent where
  uuid : String
  sessionId : String
  event : Json
  parentToolUseId : Option String

/-- `Message`: the typed message union. -/
inductive Message where
  | user (m : UserMessage)
  | assistant (m : AssistantMessage)
  | system (m : SystemMessage)
  | result (m : ResultMessage)
  | streamEvent (m : StreamEvent)

/-- `value_type_name`. -/
def value_type_name : Json → String
  | .null => "null"
  | .bool _ => "bool"
  | .num _ => "number"
  | .str _ => "string"
  | .arr _ => "array"
  | .obj _ => "object"

/-- `parent_tool_use_id` extraction shared by several parsers. -/
def getParentToolUseId (raw : Json) : Option String :=
  ((raw.get? "parent_tool_use_id").or (raw.get? "parentToolUseId")).bind Json.asStr

/-- `parse_content_block`. -/
def parse_content_block (raw : Json) : Except SdkError ContentBlock :=
  match jsonGetStr raw "type" with
  | none => .error (.messageParse "Content block missing type" (some raw))
  | some kind =>
    match kind with
    | "text" =>
        match jsonGetStr raw "text" with
        | none => .error (.messageParse "Text block missing text" (some raw))
        | some text => .ok (.text ⟨text⟩)
    | "thinking" =>
        match jsonGetStr raw "thinking" with
        | none => .error (.messageParse "Thinking block missing text" (some raw))
        | some thinking =>
          match jsonGetStr raw "signature" with
          | none => .error (.messageParse "Thinking block missing signature" (some raw))
          | some signature => .ok (.thinking ⟨thinking, signature⟩)
    | "tool_use" =>
        match jsonGetStr raw "id" with
        | none => .error (.messageParse "Tool use block missing id" (some raw))
        | some id =>
          match jsonGetStr raw "name" with
          | none => .error (.messageParse "Tool use block missing name" (some raw))
          | some name =>
            match (raw.get? "input").bind Json.asObj with
            | none => .error (.messageParse "Tool use block missing input" (some raw))
            | some input => .ok (.toolUse ⟨id, name, input⟩)
    | "tool_result" =>
        match ((raw.get? "tool_use_id").or (raw.get? "toolUseId")).bind Json.asStr with
        | none => .error (.messageParse "Tool result block missing tool_use_id" (some raw))
        | some toolUseId =>
            .ok (.toolResult ⟨toolUseId, raw.get? "content",
              (raw.get? "is_error").bind Json.asBool⟩)
    | other => .error (.messageParse ("Unknown content block type: " ++ other) (some raw))

/-- `parse_user_message`. -/
def parse_user_message (raw : Json) : Except SdkError Message :=
  let messageObject := (raw.get? "message").bind Json.asObj
  match (messageObject.bind (lookupKey "content")).or (raw.get? "content") with
  | none => .error (.messageParse "User message missing content" (some raw))
  | some contentValue =>
    let parsed : Except SdkError UserMessageContent :=
      match contentValue with
      | .str s => .ok (.text s)
      | .arr items => (items.mapM parse_content_block).map .blocks
      | _ => .error (.messageParse "Unrecognized user message content" (some raw))
    parsed.map fun content => .user ⟨content, getParentToolUseId raw⟩

/-- `parse_assistant_message`. -/
def parse_assistant_message (raw : Json) : Except SdkError Message :=
  let messageObject := (raw.get? "message").bind Json.asObj
  match (messageObject.bind (lookupKey "content")).or (raw.get? "content") with
  | none => .error (.messageParse "Assistant message missing content" (some raw))
  | some contentValue =>
    match contentValue.asArr with
    | none => .error (.messageParse "Invalid assistant content" (some raw))
    | some items =>
      match items.mapM parse_content_block with
      | .error e => .error e
      | .ok content =>
        match ((messageObject.bind (lookupKey "model")).or (raw.get? "model")).bind
            Json.asStr with
        | none => .error (.messageParse "Assistant message missing model" (some raw))
        | some model => .ok (.assistant ⟨content, model, getParentToolUseId raw⟩)

/-- `parse_system_message`. -/
def parse_system_message (raw : Json) : Except SdkError Message :=
  match jsonGetStr raw "subtype" with
  | none => .error (.messageParse "System message missing subtype" (some raw))
  | some subtype =>
    match raw.asObj with
    | none => .error (.messageParse "System message missing data" (some raw))
    | some data => .ok (.system ⟨subtype, data⟩)

/-- `get_i64`. -/
def getI64 (raw : Json) (key : String) : Except SdkError Int :=
  match (raw.get? key).bind Json.asInt with
  | none => .error (.messageParse ("Missing integer field: " ++ key) (some raw))
  | some n => .ok n

/-- `get_bool`. -/
def getBool (raw : Json) (key : String) : Except SdkError Bool :=
  match (raw.get? key).bind Json.asBool with
  | none => .error (.messageParse ("Missing boolean field: " ++ key) (some raw))
  | some b => .ok b

/-- `parse_result_message`. -/
def parse_result_message (raw : Json) : Except SdkError Message :=
  match jsonGetStr raw "subtype" with
  | none => .error (.messageParse "Result message missing subtype" (some raw))
  | some subtype => do
    let durationMs ← getI64 raw "duration_ms"
    let durationApiMs ← getI64 raw "duration_api_ms"
    let isError ← getBool raw "is_error"
    let numTurns ← getI64 raw "num_turns"
    match jsonGetStr raw "session_id" with
    | none => .error (.messageParse "Result message missing session_id" (some raw))
    | some sessionId =>
        .ok (.result ⟨subtype, durationMs, durationApiMs, isError, numTurns, sessionId,
          (raw.get? "total_cost_usd").bind Json.asInt,
          (raw.get? "usage").bind Json.asObj,
          jsonGetStr raw "result"⟩)

/-- `parse_stream_event`. -/
def parse_stream_event (raw : Json) : Except SdkError Message :=
  match jsonGetStr raw "uuid" with
  | none => .error (.messageParse "Stream event missing uuid" (some raw))
  | some uuid =>
    match jsonGetStr raw "session_id" with
    | none => .error (.messageParse "Stream event missing session_id" (some raw))
    | some sessionId =>
      match raw.get? "event" with
      | none => .error (.messageParse "Stream event missing event payload" (some raw))
      | some event => .ok (.streamEvent ⟨uuid, sessionId, event, getParentToolUseId raw⟩)

/-- `parse_message`: convert a raw frame into a typed `Message`. -/
def parse_message (raw : Json) : Except SdkError Message :=
  match raw.asObj with
  | none =>
      .error (.messageParse
        ("Invalid message data type (expected object, got " ++ value_type_name raw ++ ")")
        (some raw))
  | some object =>
    match (lookupKey "type" object).bind Json.asStr with
    | none => .error (.messageParse "Message missing 'type' field" (some raw))
    | some messageType =>
      match messageType with
      | "user" => parse_user_message raw
      | "assistant" => parse_assistant_message raw
      | "system" => parse_system_message raw
      | "result" => parse_result_message raw
      | "stream_event" => parse_stream_event raw
      | other => .error (.messageParse ("Unknown message type: " ++ other) (some raw))

/-! ## Orchestrator: control-response correlation and the read loop
(`src/internal/query.rs:249-356`)

The pending-request map `pending_control : HashMap<String, ControlResponder>` is
modelled as an association list from request-id to an opaque responder identity
(`Nat`); resolving a responder is modelled by recording the `(responder,
outcome)` pair. -/

/-- `handle_control_response` (`query.rs:315-356`): correlate an incoming
`control_response` frame with the pending request map.  Returns the updated map
and the resolution delivered to the removed responder, if any. -/
def handle_control_response (pending : List (String × Nat)) (message : Json) :
    Except SdkError (List (String × Nat) × Option (Nat × Except SdkError Json)) :=
  match (message.get? "response").bind Json.asObj with
  | none => .error (.message "control response missing 'response' field")
  | some response =>
    match (lookupKey "request_id" response).bind Json.asStr with
    | none => .error (.message "control response missing request_id")
    | some requestId =>
      match (lookupKey "subtype" response).bind Json.asStr with
      | none => .error (.message "control response missing subtype")
      | some subtype =>
        let responder := lookupKey requestId pending
        let pending' := removeKey requestId pending
        match responder with
        | none => .ok (pending', none)
        | some responder =>
          if subtype = "error" then
            let msg := ((lookupKey "error" response).bind Json.asStr).getD "Unknown error"
            .ok (pending', some (responder, .error (.message msg)))
          else
            let payload := (lookupKey "response" response).getD Json.null
            .ok (pending', some (responder, .ok payload))

/-- The frame discriminant: `raw.get("type").and_then(Value::as_str)`. -/
def frameType (raw : Json) : Option String :=
  jsonGetStr raw "type"

/-- Whether a frame is a control frame (one of the three control
discriminants). -/
def isControlFrame (raw : Json) : Bool :=
  match frameType raw with
  | some "control_request" => true
  | some "control_response" => true
  | some "control_cancel_request" => true
  | _ => false

/-- A malformed `control_response` is the only frame whose routing returns an
error and thereby halts the read loop. -/
def controlResponseWellFormed (raw : Json) : Bool :=
  match (raw.get? "response").bind Json.asObj with
  | none => false
  | some response =>
      ((lookupKey "request_id" response).bind Json.asStr).isSome
        && ((lookupKey "subtype" response).bind Json.asStr).isSome

/-- Whether routing the frame can break the read loop. -/
def frameHalts (raw : Json) : Bool :=
  match frameType raw with
  | some "control_response" => !controlResponseWellFormed raw
  | _ => false

/-- Cumulative effect of one run of the read loop. -/
structure LoopResult where
  queue : List (Except SdkError Message)
  spawned : List Json
  pending : List (String × Nat)
  resolutions : List (Nat × Except SdkError Json)

/-- `read_loop` + `route_incoming_message` (`query.rs:249-297`): consume the
transport's reads in order.  A transport error or a routing error is enqueued
and breaks the loop; `control_request` frames are handed to freshly spawned
tasks (collected in `spawned`); `control_cancel_request` frames are ignored;
everything else is parsed and enqueued. -/
def read_loop : List (Except SdkError Json) → List (String × Nat) → LoopResult
  | [], pending => ⟨[], [], pending, []⟩
  | .error e :: _, pending => ⟨[.error e], [], pending, []⟩
  | .ok raw :: rest, pending =>
    match frameType raw with
    | some "control_response" =>
        match handle_control_response pending raw with
        | .error e => ⟨[.error e], [], pending, []⟩
        | .ok (pending', res) =>
            let r := read_loop rest pending'
            ⟨r.queue, r.spawned, r.pending, res.toList ++ r.resolutions⟩
    | some "control_request" =>
        let r := read_loop rest pending
        ⟨r.queue, raw :: r.spawned, r.pending, r.resolutions⟩
    | some "control_cancel_request" => read_loop rest pending
    | _ =>
        let r := read_loop rest pending
        ⟨parse_message raw :: r.queue, r.spawned, r.pending, r.resolutions⟩

/-- `next_message` (`query.rs:179-186`) pulls from the queue: the sequence a
caller repeatedly invoking it observes is each queue item in order
(`Ok(Some(m))` or `Err(e)`) followed by end-of-stream (`Ok(None)`). -/
def consumerView (queue : List (Except SdkError Message)) :
    List (Except SdkError (Option Message)) :=
  queue.map (fun item => match item with
    | .ok m => .ok (some m)
    | .error e => .error e) ++ [.ok none]

theorem handle_control_response_isOk (pending : List (String × Nat)) (raw : Json)
    (h : controlResponseWellFormed raw = true) :
    ∃ pr, handle_control_response pending raw = .ok pr := by
  unfold controlResponseWellFormed at h
  unfold handle_control_response
  match h1 : (raw.get? "response").bind Json.asObj with
  | none => rw [h1] at h; exact absurd h (by simp)
  | some response =>
    rw [h1] at h
    simp only [Bool.and_eq_true, Option.isSome_iff_exists] at h
    obtain ⟨⟨rid, hr⟩, ⟨st, hs⟩⟩ := h
    simp only [hr, hs]
    cases lookupKey rid pending with
    | none => exact ⟨_, rfl⟩
    | some responder =>
        by_cases hst : st = "error" <;> simp only [hst, if_true, if_false, reduceIte] <;>
          exact ⟨_, rfl⟩

theorem read_loop_append_error (before : List (Except SdkError Json)) (e : SdkError)
    (after : List (Except SdkError Json)) (pending : List (String × Nat))
    (h : ∀ r ∈ before, ∃ raw, r = .ok raw ∧ frameHalts raw = false) :
    read_loop (before ++ .error e :: after) pending =
      { read_loop before pending with
        queue := (read_loop before pending).queue ++ [.error e] } := by
  induction before generalizing pending with
  | nil => simp [read_loop]
  | cons x rest ih =>
      obtain ⟨raw, rfl, hhalt⟩ := h _ (List.mem_cons_self _ _)
      have hrest : ∀ r ∈ rest, ∃ raw, r = .ok raw ∧ frameHalts raw = false :=
        fun r hr => h r (List.mem_cons_of_mem _ hr)
      cases hft : frameType raw with
      | none => simp [read_loop, hft, ih _ hrest]
      | some s =>
        by_cases h1 : s = "control_response"
        · subst h1
          have hwf : controlResponseWellFormed raw = true := by
            unfold frameHalts at hhalt
            rw [hft] at hhalt
            simpa using hhalt
          obtain ⟨⟨pending', res⟩, hok⟩ := handle_control_response_isOk pending raw hwf
          simp [read_loop, hft, hok, ih _ hrest]
        · by_cases h2 : s = "control_request"
          · subst h2; simp [read_loop, hft, ih _ hrest]
          · by_cases h3 : s = "control_cancel_request"
            · subst h3; simp [read_loop, hft, ih _ hrest]
            · simp [read_loop, hft, h1, h2, h3, ih _ hrest]

/-- C2: (1) when a non-empty trimmed fragment pushes the accumulation buffer
over the configured maximum, the stdout task emits exactly one decode error on
the channel, records that same error as the terminal (`exit_error`) error, and
discards the buffer; (2) the read loop stops at the first transport error: the
consumer queue is whatever preceded the error followed by that single error,
and neither later child frames nor any further transport error (in particular a
second overflow error) contribute anything to the queue, the spawned handlers,
or the resolutions. -/
theorem buffer_overflow_emitted_once_ends_session :
    (∀ (maxBufferSize : Nat) (parse : String → Option Json) (acc : StdoutAcc)
        (frag : String),
      rustTrim frag ≠ "" →
      maxBufferSize < (acc.jsonBuffer ++ rustTrim frag).length →
      processFragment maxBufferSize parse acc frag =
        { jsonBuffer := "",
          channel := acc.channel
            ++ [.error (bufferOverflowError (acc.jsonBuffer ++ rustTrim frag) maxBufferSize)],
          exitError := some (bufferOverflowError (acc.jsonBuffer ++ rustTrim frag)
            maxBufferSize) })
    ∧ (∀ (before : List (Except SdkError Json)) (e : SdkError)
        (after : List (Except SdkError Json)) (pending : List (String × Nat)),
      (∀ r ∈ before, ∃ raw, r = .ok raw ∧ frameHalts raw = false) →
      read_loop (before ++ .error e :: after) pending =
        { read_loop before pending with
          queue := (read_loop before pending).queue ++ [.error e] }) := by
  constructor
  · intro maxBufferSize parse acc frag hne hover
    unfold processFragment
    simp only [hne, if_false, hover, if_true, reduceIte]
  · exact read_loop_append_error

/-- C2 witness: a 3-byte limit with buffer `"ab"` and fragment `"cd"`
overflows and yields exactly the single recorded decode error; end-to-end,
a child that emits a parsable frame, then an overflowing line, then another
parsable frame produces the channel `[frame, overflow error, frame]`, and the
read loop consuming that channel delivers the first frame's parse and the
error, and nothing else — the frame decoded after the overflow never reaches
the consumer. -/
theorem buffer_overflow_emitted_once_ends_session_witness :
    processFragment 3 (fun _ => none) ⟨"ab", [], none⟩ "cd" =
        { jsonBuffer := "", channel := [.error (bufferOverflowError "abcd" 3)],
          exitError := some (bufferOverflowError "abcd" 3) }
    ∧ (spawn_stdout_task 3
        (fun s => if s = "{}" then some (.obj [("type", .str "user"),
          ("message", .obj [("content", .str "hi")])]) else none)
        [.fragments ["{}", "aaaaaa", "{}"]] (.status true none)).channel
      = [.ok (.obj [("type", .str "user"), ("message", .obj [("content", .str "hi")])]),
         .error (bufferOverflowError "aaaaaa" 3),
         .ok (.obj [("type", .str "user"), ("message", .obj [("content", .str "hi")])])]
    ∧ read_loop (spawn_stdout_task 3
        (fun s => if s = "{}" then some (.obj [("type", .str "user"),
          ("message", .obj [("content", .str "hi")])]) else none)
        [.fragments ["{}", "aaaaaa", "{}"]] (.status true none)).channel []
      = { queue := [parse_message (.obj [("type", .str "user"),
            ("message", .obj [("content", .str "hi")])]),
            .error (bufferOverflowError "aaaaaa" 3)],
          spawned := [], pending := [], resolutions := [] } := by
  refine ⟨buffer_overflow_emitted_once_ends_session.1 3 (fun _ => none) ⟨"ab", [], none⟩ "cd"
    (by decide) (by decide), rfl, ?_⟩
  have := buffer_overflow_emitted_once_ends_session.2
    [.ok (.obj [("type", .str "user"), ("message", .obj [("content", .str "hi")])])]
    (bufferOverflowError "aaaaaa" 3)
    [.ok (.obj [("type", .str "user"), ("message", .obj [("content", .str "hi")])])] []
    (by intro r hr
        simp only [List.mem_singleton] at hr
        exact ⟨_, hr, rfl⟩)
  simp only [List.cons_append, List.nil_append] at this
  rw [show (spawn_stdout_task 3
      (fun s => if s = "{}" then some (.obj [("type", .str "user"),
        ("message", .obj [("content", .str "hi")])]) else none)
      [.fragments ["{}", "aaaaaa", "{}"]] (.status true none)).channel
    = [.ok (.obj [("type", .str "user"), ("message", .obj [("content", .str "hi")])]),
       .error (bufferOverflowError "aaaaaa" 3),
       .ok (.obj [("type", .str "user"), ("message", .obj [("content", .str "hi")])])]
    from rfl]
  rw [this]
  rfl

theorem read_loop_queue_content (frames : List Json) (pending : List (String × Nat))
    (h : ∀ f ∈ frames, frameHalts f = false) :
    (read_loop (frames.map .ok) pending).queue
      = (frames.filter (fun f => !isControlFrame f)).map parse_message := by
  induction frames generalizing pending with
  | nil => simp [read_loop]
  | cons raw rest ih =>
      have hrest : ∀ f ∈ rest, frameHalts f = false :=
        fun f hf => h f (List.mem_cons_of_mem _ hf)
      have hraw := h _ (List.mem_cons_self _ _)
      cases hft : frameType raw with
      | none => simp [read_loop, hft, isControlFrame, List.filter, ih _ hrest]
      | some s =>
        by_cases h1 : s = "control_response"
        · subst h1
          have hwf : controlResponseWellFormed raw = true := by
            unfold frameHalts at hraw
            rw [hft] at hraw
            simpa using hraw
          obtain ⟨⟨pending', res⟩, hok⟩ := handle_control_response_isOk pending raw hwf
          simp [read_loop, hft, hok, isControlFrame, List.filter, ih _ hrest]
        · by_cases h2 : s = "control_request"
          · subst h2; simp [read_loop, hft, isControlFrame, List.filter, ih _ hrest]
          · by_cases h3 : s = "control_cancel_request"
            · subst h3; simp [read_loop, hft, isControlFrame, List.filter, ih _ hrest]
            · simp [read_loop, hft, h1, h2, h3, isControlFrame, List.filter, ih _ hrest]

/-- C3 (amended): provided every `control_response` frame in the transport's
output is well-formed (carries a `response` object with string `request_id` and
`subtype` — equivalently, no frame halts the loop with a protocol error), the
queue served by `next_message` is, in order, exactly the typed parse of each
frame whose discriminant is not `control_request`, `control_response`, or
`control_cancel_request`; control frames are never surfaced to the content
consumer, who observes those parses and then end-of-stream. -/
theorem content_messages_are_noncontrol_parses (frames : List Json)
    (pending : List (String × Nat)) (h : ∀ f ∈ frames, frameHalts f = false) :
    (read_loop (frames.map .ok) pending).queue
        = (frames.filter (fun f => !isControlFrame f)).map parse_message
      ∧ consumerView (read_loop (frames.map .ok) pending).queue
        = ((frames.filter (fun f => !isControlFrame f)).map parse_message).map
            (fun item => match item with
              | .ok m => .ok (some m)
              | .error e => .error e) ++ [.ok none] := by
  refine ⟨read_loop_queue_content frames pending h, ?_⟩
  rw [consumerView, read_loop_queue_content frames pending h]

/-- C3 witness: a child emission order of user frame, control request, a
well-formed control response, then a result-type frame delivers exactly the
parses of the two non-control frames, in order. -/
theorem content_messages_are_noncontrol_parses_witness :
    (read_loop ([Json.obj [("type", .str "user"), ("message", .obj [("content", .str "hi")])],
        Json.obj [("type", .str "control_request"), ("request_id", .str "r1"),
          ("request", .obj [("subtype", .str "interrupt")])],
        Json.obj [("type", .str "control_response"),
          ("response", .obj [("subtype", .str "success"), ("request_id", .str "q1")])],
        Json.obj [("type", .str "stream_event"), ("uuid", .str "u1"),
          ("session_id", .str "s1"), ("event", .obj [])]].map .ok) []).queue
      = [parse_message (.obj [("type", .str "user"),
          ("message", .obj [("content", .str "hi")])]),
         parse_message (.obj [("type", .str "stream_event"), ("uuid", .str "u1"),
          ("session_id", .str "s1"), ("event", .obj [])])] := by
  have := (content_messages_are_noncontrol_parses
    [Json.obj [("type", .str "user"), ("message", .obj [("content", .str "hi")])],
     Json.obj [("type", .str "control_request"), ("request_id", .str "r1"),
       ("request", .obj [("subtype", .str "interrupt")])],
     Json.obj [("type", .str "control_response"),
       ("response", .obj [("subtype", .str "success"), ("request_id", .str "q1")])],
     Json.obj [("type", .str "stream_event"), ("uuid", .str "u1"),
       ("session_id", .str "s1"), ("event", .obj [])]] []
    (by decide)).1
  rw [this]
  rfl

/-- C3 counterexample: a malformed `control_response` (missing its `response`
object) followed by a valid user frame: the read loop halts with a protocol
error, so the consumer queue is that error and the user frame's parse is never
delivered — the delivered sequence differs from the typed parses of the
non-control frames, refuting the claim as stated for arbitrary frame
sequences. -/
theorem content_messages_counterexample :
    (read_loop ([Json.obj [("type", .str "control_response")],
        Json.obj [("type", .str "user"),
          ("message", .obj [("content", .str "hi")])]].map .ok) []).queue
        = [.error (.message "control response missing 'response' field")]
      ∧ ([Json.obj [("type", .str "control_response")],
          Json.obj [("type", .str "user"), ("message", .obj [("content", .str "hi")])]].filter
            (fun f => !isControlFrame f)).map parse_message
        = [.ok (.user ⟨.text "hi", none⟩)]
      ∧ ([.error (.message "control response missing 'response' field")]
          : List (Except SdkError Message))
        ≠ [.ok (.user ⟨.text "hi", none⟩)] :=
  ⟨rfl, rfl, nofun⟩

theorem lookupKey_removeKey_ne {α : Type} (k k' : String) (hne : k' ≠ k)
    (l : List (String × α)) : lookupKey k' (removeKey k l) = lookupKey k' l := by
  induction l with
  | nil => rfl
  | cons p rest ih =>
      obtain ⟨a, v⟩ := p
      by_cases ha : a = k
      · subst ha
        rw [removeKey, if_pos rfl, lookupKey, if_neg (fun hh => hne hh.symm)]
      · rw [removeKey, if_neg ha, lookupKey, lookupKey]
        by_cases ha' : a = k'
        · rw [if_pos ha', if_pos ha']
        · rw [if_neg ha', if_neg ha']
          exact ih

theorem removeKey_of_not_found {α : Type} (k : String) (l : List (String × α))
    (h : lookupKey k l = none) : removeKey k l = l := by
  induction l with
  | nil => rfl
  | cons p rest ih =>
      obtain ⟨a, v⟩ := p
      by_cases ha : a = k
      · rw [lookupKey, if_pos ha] at h
        exact absurd h (by simp)
      · rw [lookupKey, if_neg ha] at h
        rw [removeKey, if_neg ha, ih h]

theorem lookupKey_of_not_mem {α : Type} (k : String) (l : List (String × α))
    (h : k ∉ l.map Prod.fst) : lookupKey k l = none := by
  induction l with
  | nil => rfl
  | cons p rest ih =>
      obtain ⟨a, v⟩ := p
      simp only [List.map_cons, List.mem_cons] at h
      push_neg at h
      rw [lookupKey, if_neg (fun hh => h.1 hh.symm)]
      exact ih h.2

theorem lookupKey_removeKey_self {α : Type} (k : String) (l : List (String × α))
    (hnd : (l.map Prod.fst).Nodup) : lookupKey k (removeKey k l) = none := by
  induction l with
  | nil => rfl
  | cons p rest ih =>
      obtain ⟨a, v⟩ := p
      simp only [List.map_cons, List.nodup_cons] at hnd
      by_cases ha : a = k
      · subst ha
        rw [removeKey, if_pos rfl]
        exact lookupKey_of_not_mem a rest hnd.1
      · rw [removeKey, if_neg ha, lookupKey, if_neg ha]
        exact ih hnd.2

/-- C4: a well-formed `control_response` carrying request-id `r` resolves
exactly the pending request registered under `r` — with a failure carrying the
server-reported message when the subtype is `"error"`, and with the nested
response payload otherwise — and removes that registration (with unique
request-ids the id no longer resolves), leaving the registration of every other
request-id untouched; a `control_response` whose request-id matches no pending
request is silently dropped: the map is unchanged, nobody is resolved, and the
read loop continues with the remaining reads. -/
theorem control_response_resolves_exactly_match :
    (∀ (pending : List (String × Nat)) (raw : Json) (response : List (String × Json))
        (rid errMsg : String) (n : Nat),
      (raw.get? "response").bind Json.asObj = some response →
      (lookupKey "request_id" response).bind Json.asStr = some rid →
      (lookupKey "subtype" response).bind Json.asStr = some "error" →
      (lookupKey "error" response).bind Json.asStr = some errMsg →
      lookupKey rid pending = some n →
      handle_control_response pending raw
          = .ok (removeKey rid pending, some (n, .error (.message errMsg)))
        ∧ (∀ k, k ≠ rid → lookupKey k (removeKey rid pending) = lookupKey k pending)
        ∧ ((pending.map Prod.fst).Nodup → lookupKey rid (removeKey rid pending) = none))
    ∧ (∀ (pending : List (String × Nat)) (raw : Json) (response : List (String × Json))
        (rid subtype : String) (n : Nat),
      (raw.get? "response").bind Json.asObj = some response →
      (lookupKey "request_id" response).bind Json.asStr = some rid →
      (lookupKey "subtype" response).bind Json.asStr = some subtype →
      subtype ≠ "error" →
      lookupKey rid pending = some n →
      handle_control_response pending raw
        = .ok (removeKey rid pending,
            some (n, .ok ((lookupKey "response" response).getD Json.null))))
    ∧ (∀ (pending : List (String × Nat)) (raw : Json) (response : List (String × Json))
        (rid subtype : String) (rest : List (Except SdkError Json)),
      frameType raw = some "control_response" →
      (raw.get? "response").bind Json.asObj = some response →
      (lookupKey "request_id" response).bind Json.asStr = some rid →
      (lookupKey "subtype" response).bind Json.asStr = some subtype →
      lookupKey rid pending = none →
      handle_control_response pending raw = .ok (pending, none)
        ∧ read_loop (.ok raw :: rest) pending = read_loop rest pending) := by
  refine ⟨?_, ?_, ?_⟩
  · intro pending raw response rid errMsg n h1 h2 h3 h4 h5
    refine ⟨?_, fun k hk => lookupKey_removeKey_ne rid k hk pending,
      fun hnd => lookupKey_removeKey_self rid pending hnd⟩
    unfold handle_control_response
    simp [h1, h2, h3, h4, h5]
  · intro pending raw response rid subtype n h1 h2 h3 hne h5
    unfold handle_control_response
    simp [h1, h2, h3, h5, hne]
  · intro pending raw response rid subtype rest hft h1 h2 h3 h5
    have hh : handle_control_response pending raw = .ok (pending, none) := by
      unfold handle_control_response
      simp [h1, h2, h3, h5, removeKey_of_not_found rid pending h5]
    refine ⟨hh, ?_⟩
    simp [read_loop, hft, hh]

/-- C4 witness: with pending requests `a ↦ 1, b ↦ 2`, an error response for `b`
resolves responder 2 with the server message and leaves `a` registered; a
success response for `a` resolves responder 1 with the payload; a response for
the unknown id `z` is dropped with the map unchanged and the loop continuing. -/
theorem control_response_resolves_exactly_match_witness :
    handle_control_response [("a", 1), ("b", 2)]
        (.obj [("type", .str "control_response"),
          ("response", .obj [("subtype", .str "error"), ("request_id", .str "b"),
            ("error", .str "boom")])])
        = .ok ([("a", 1)], some (2, .error (.message "boom")))
      ∧ lookupKey "a" (removeKey "b" [("a", 1), ("b", 2)]) = some 1
      ∧ handle_control_response [("a", 1), ("b", 2)]
        (.obj [("type", .str "control_response"),
          ("response", .obj [("subtype", .str "success"), ("request_id", .str "a"),
            ("response", .str "payload")])])
        = .ok ([("b", 2)], some (1, .ok (.str "payload")))
      ∧ handle_control_response [("a", 1), ("b", 2)]
        (.obj [("type", .str "control_response"),
          ("response", .obj [("subtype", .str "success"), ("request_id", .str "z")])])
        = .ok ([("a", 1), ("b", 2)], none) := by
  have h1 := (control_response_resolves_exactly_match.1 [("a", 1), ("b", 2)]
    (.obj [("type", .str "control_response"),
      ("response", .obj [("subtype", .str "error"), ("request_id", .str "b"),
        ("error", .str "boom")])])
    [("subtype", .str "error"), ("request_id", .str "b"), ("error", .str "boom")]
    "b" "boom" 2 rfl rfl rfl rfl rfl)
  have h2 := (control_response_resolves_exactly_match.2.1 [("a", 1), ("b", 2)]
    (.obj [("type", .str "control_response"),
      ("response", .obj [("subtype", .str "success"), ("request_id", .str "a"),
        ("response", .str "payload")])])
    [("subtype", .str "success"), ("request_id", .str "a"), ("response", .str "payload")]
    "a" "success" 1 rfl rfl rfl (by decide) rfl)
  have h3 := (control_response_resolves_exactly_match.2.2 [("a", 1), ("b", 2)]
    (.obj [("type", .str "control_response"),
      ("response", .obj [("subtype", .str "success"), ("request_id", .str "z")])])
    [("subtype", .str "success"), ("request_id", .str "z")]
    "z" "success" [] rfl rfl rfl rfl rfl)
  exact ⟨h1.1, h1.2.1 "a" (by decide), h2, h3.1⟩

/-! ## Hook-output wire conversion (`convert_hook_output_for_cli`,
`query.rs:749-774`) -/

/-- The table-driven key substitution applied by `convert_hook_output_for_cli`:
the two implementation-language reserved-word collisions, every other key
unchanged. -/
def renameHookKey (key : String) : String :=
  if key = "async_" then "async"
  else if key = "continue_" then "continue"
  else key

/-- Rebuild a `serde_json::Map` by inserting pairs in order. -/
def buildMap (pairs : List (String × Json)) : List (String × Json) :=
  pairs.foldl (fun m p => insertKey p.1 p.2 m) []

mutual

/-- `convert_hook_output_for_cli`: recursively rename the two reserved-word
keys in every object, recurse into arrays, and leave all other values
unchanged. -/
def convert_hook_output_for_cli : Json → Json
  | .obj fields => .obj (buildMap (convertHookPairs fields))
  | .arr items => .arr (convertHookItems items)
  | .null => .null
  | .bool b => .bool b
  | .num n => .num n
  | .str s => .str s

/-- The converted `(key, value)` pairs of an object, in iteration order. -/
def convertHookPairs : List (String × Json) → List (String × Json)
  | [] => []
  | (key, val) :: rest =>
      (renameHookKey key, convert_hook_output_for_cli val) :: convertHookPairs rest

/-- The converted items of an array. -/
def convertHookItems : List Json → List Json
  | [] => []
  | item :: rest => convert_hook_output_for_cli item :: convertHookItems rest

end

theorem convertHookPairs_eq_map (fields : List (String × Json)) :
    convertHookPairs fields
      = fields.map (fun p => (renameHookKey p.1, convert_hook_output_for_cli p.2)) := by
  induction fields with
  | nil => rfl
  | cons p rest ih =>
      obtain ⟨k, v⟩ := p
      rw [convertHookPairs, List.map_cons, ih]

theorem insertKey_not_mem {α : Type} (k : String) (v : α) (l : List (String × α))
    (h : k ∉ l.map Prod.fst) : insertKey k v l = l ++ [(k, v)] := by
  induction l with
  | nil => rfl
  | cons p rest ih =>
      obtain ⟨a, w⟩ := p
      simp only [List.map_cons, List.mem_cons] at h
      push_neg at h
      rw [insertKey, if_neg (fun hh => h.1 hh.symm), List.cons_append, ih h.2]

theorem buildMap_aux_nodup : ∀ (pairs acc : List (String × Json)),
    ((acc ++ pairs).map Prod.fst).Nodup →
    pairs.foldl (fun m p => insertKey p.1 p.2 m) acc = acc ++ pairs := by
  intro pairs
  induction pairs with
  | nil => intro acc _; simp
  | cons p rest ih =>
      intro acc hnd
      obtain ⟨k, v⟩ := p
      have hk : k ∉ acc.map Prod.fst := by
        intro hm
        have : ¬ ((acc ++ (k, v) :: rest).map Prod.fst).Nodup := by
          simp only [List.map_append, List.map_cons]
          intro hh
          exact (List.disjoint_of_nodup_append hh) hm (by simp)
        exact this hnd
      rw [List.foldl_cons, insertKey_not_mem k v acc hk]
      have := ih (acc ++ [(k, v)]) (by simpa using hnd)
      rw [this]
      simp

theorem buildMap_eq_self (pairs : List (String × Json))
    (hnd : (pairs.map Prod.fst).Nodup) : buildMap pairs = pairs := by
  have := buildMap_aux_nodup pairs [] (by simpa using hnd)
  simpa [buildMap] using this

/-- C9: the hook-output wire conversion renames exactly the two object keys
`async_` → `async` and `continue_` → `continue` (a table-driven substitution)
and leaves every other object key unchanged: on an object whose renamed keys
are distinct, the result is the same field list with each key passed through
the two-entry rename table and each value converted recursively; every value
that is not an object or array is left completely unchanged. -/
theorem hook_output_renames_exactly_two_keys :
    renameHookKey "async_" = "async"
    ∧ renameHookKey "continue_" = "continue"
    ∧ (∀ k, k ≠ "async_" → k ≠ "continue_" → renameHookKey k = k)
    ∧ (∀ fields : List (String × Json),
        (fields.map (fun p => renameHookKey p.1)).Nodup →
        convert_hook_output_for_cli (.obj fields)
          = .obj (fields.map (fun p => (renameHookKey p.1, convert_hook_output_for_cli p.2))))
    ∧ convert_hook_output_for_cli .null = .null
    ∧ (∀ b, convert_hook_output_for_cli (.bool b) = .bool b)
    ∧ (∀ n, convert_hook_output_for_cli (.num n) = .num n)
    ∧ (∀ s, convert_hook_output_for_cli (.str s) = .str s) := by
  refine ⟨rfl, rfl, ?_, ?_, rfl, fun b => rfl, fun n => rfl, fun s => rfl⟩
  · intro k h1 h2
    rw [renameHookKey, if_neg h1, if_neg h2]
  · intro fields hnd
    rw [convert_hook_output_for_cli, convertHookPairs_eq_map,
      buildMap_eq_self _ (by simpa [convertHookPairs_eq_map] using hnd)]

/-- C9 witness: a concrete hook-output object with both reserved-word keys and
an ordinary key, with a nested object inside an array, converts to the same
structure with exactly the two keys renamed. -/
theorem hook_output_renames_exactly_two_keys_witness :
    convert_hook_output_for_cli (.obj [("async_", .bool true), ("continue_", .bool false),
        ("decision", .str "block"),
        ("nested", .arr [.obj [("continue_", .num 1), ("plain", .null)]])])
      = .obj [("async", .bool true), ("continue", .bool false), ("decision", .str "block"),
          ("nested", .arr [.obj [("continue", .num 1), ("plain", .null)]])] := by
  rw [hook_output_renames_exactly_two_keys.2.2.2.1 _ (by decide)]
  simp only [List.map_cons, List.map_nil]
  rw [hook_output_renames_exactly_two_keys.2.2.2.2.2.1,
    hook_output_renames_exactly_two_keys.2.2.2.2.2.1,
    hook_output_renames_exactly_two_keys.2.2.2.2.2.2.2,
    convert_hook_output_for_cli, convertHookItems, convertHookItems,
    hook_output_renames_exactly_two_keys.2.2.2.1 _ (by decide)]
  simp only [List.map_cons, List.map_nil]
  rw [hook_output_renames_exactly_two_keys.2.2.2.2.2.2.1,
    hook_output_renames_exactly_two_keys.2.2.2.2.1]
  rfl

/-! ## Decimal rendering

`format!` renders the `u64` request counter and callback counter in decimal
(`Nat.repr` in this embedding).  The distinctness claims need that decimal
rendering is injective and produces no underscore. -/

theorem toDigitsCore_append (b : Nat) :
    ∀ (f n : Nat) (c : Char) (ds : List Char),
      Nat.toDigitsCore b f n (c :: ds) = Nat.toDigitsCore b f n [] ++ c :: ds := by
  intro f
  induction f with
  | zero => intro n c ds; rfl
  | succ f ih =>
      intro n c ds
      by_cases h : n / b = 0
      · simp [Nat.toDigitsCore, h]
      · simp only [Nat.toDigitsCore, h, if_false, reduceIte]
        rw [ih, ih (n / b) (Nat.digitChar (n % b)) []]
        simp

theorem toDigitsCore_fuel (b : Nat) (hb : 1 < b) :
    ∀ n, ∀ f f' : Nat, n < f → n < f' →
      Nat.toDigitsCore b f n [] = Nat.toDigitsCore b f' n [] := by
  intro n
  induction n using Nat.strong_induction_on with
  | _ n ih =>
      intro f f' hf hf'
      cases f with
      | zero => omega
      | succ f0 =>
        cases f' with
        | zero => omega
        | succ f1 =>
          by_cases h : n / b = 0
          · simp [Nat.toDigitsCore, h]
          · simp only [Nat.toDigitsCore, h, if_false, reduceIte]
            rw [toDigitsCore_append, toDigitsCore_append]
            have hn0 : 0 < n := by
              rcases Nat.eq_zero_or_pos n with h0 | h0
              · exact absurd (by simp [h0]) h
              · exact h0
            have hdiv : n / b < n := Nat.div_lt_self hn0 hb
            rw [ih (n / b) hdiv f0 f1 (by omega) (by omega)]

/-- The decimal digit rendering of a natural number (`Nat.repr`'s character
list). -/
def digitsList (n : Nat) : List Char := Nat.toDigits 10 n

theorem repr_data (n : Nat) : (Nat.repr n).data = digitsList n := rfl

theorem digitsList_unfold (n : Nat) :
    digitsList n = if n < 10 then [Nat.digitChar n]
      else digitsList (n / 10) ++ [Nat.digitChar (n % 10)] := by
  unfold digitsList Nat.toDigits
  by_cases h : n < 10
  · have hd : n / 10 = 0 := Nat.div_eq_of_lt h
    have hm : n % 10 = n := Nat.mod_eq_of_lt h
    simp [Nat.toDigitsCore, hd, hm, h]
  · have hd : n / 10 ≠ 0 := by
      intro h0
      exact h ((Nat.div_eq_zero_iff (by norm_num)).mp h0)
    have hn0 : 0 < n := by
      rcases Nat.eq_zero_or_pos n with h0 | h0
      · exact absurd (by simp [h0]) hd
      · exact h0
    have hdiv : n / 10 < n := Nat.div_lt_self hn0 (by norm_num)
    simp only [Nat.toDigitsCore, hd, if_false, h, reduceIte]
    rw [toDigitsCore_append]
    congr 1
    exact toDigitsCore_fuel 10 (by norm_num) (n / 10) n (n / 10 + 1) hdiv (Nat.lt_succ_self _)

theorem digitsList_ne_nil (n : Nat) : digitsList n ≠ [] := by
  rw [digitsList_unfold n]
  by_cases h : n < 10 <;> simp [h]

theorem digitChar_inj_lt : ∀ m < 10, ∀ n < 10, Nat.digitChar m = Nat.digitChar n → m = n := by
  decide

theorem digitChar_ne_underscore : ∀ n < 10, Nat.digitChar n ≠ '_' := by decide

theorem digitsList_no_underscore (n : Nat) : '_' ∉ digitsList n := by
  induction n using Nat.strong_induction_on with
  | _ n ih =>
      rw [digitsList_unfold n]
      by_cases h : n < 10
      · simp only [h, if_true, reduceIte, List.mem_singleton]
        exact fun hc => digitChar_ne_underscore n h hc.symm
      · have hn0 : 0 < n := by omega
        have hdiv : n / 10 < n := Nat.div_lt_self hn0 (by norm_num)
        simp only [h, if_false, reduceIte, List.mem_append, List.mem_singleton]
        rintro (hc | hc)
        · exact ih (n / 10) hdiv hc
        · exact digitChar_ne_underscore (n % 10) (Nat.mod_lt _ (by norm_num)) hc.symm

theorem digitsList_inj : ∀ m n : Nat, digitsList m = digitsList n → m = n := by
  intro m
  induction m using Nat.strong_induction_on with
  | _ m ih =>
      intro n h
      rw [digitsList_unfold m, digitsList_unfold n] at h
      by_cases hm : m < 10 <;> by_cases hn : n < 10
      · simp only [hm, hn, if_true, reduceIte, List.cons.injEq] at h
        exact digitChar_inj_lt m hm n hn h.1
      · rw [if_pos hm, if_neg hn] at h
        have hlen := congrArg List.length h
        simp only [List.length_singleton, List.length_append, List.length_cons,
          List.length_nil] at hlen
        exact absurd (List.length_eq_zero.mp (by omega)) (digitsList_ne_nil (n / 10))
      · rw [if_neg hm, if_pos hn] at h
        have hlen := congrArg List.length h
        simp only [List.length_singleton, List.length_append, List.length_cons,
          List.length_nil] at hlen
        exact absurd (List.length_eq_zero.mp (by omega)) (digitsList_ne_nil (m / 10))
      · simp only [hm, hn, if_false, reduceIte] at h
        have hrev := congrArg List.reverse h
        simp only [List.reverse_append, List.reverse_cons, List.reverse_nil,
          List.nil_append, List.singleton_append, List.cons.injEq] at hrev
        have hmod : m % 10 = n % 10 :=
          digitChar_inj_lt _ (Nat.mod_lt _ (by norm_num)) _ (Nat.mod_lt _ (by norm_num)) hrev.1
        have hdivlists : digitsList (m / 10) = digitsList (n / 10) := by
          have := congrArg List.reverse hrev.2
          simpa using this
        have hm0 : 0 < m := by omega
        have hdiv : m / 10 = n / 10 :=
          ih (m / 10) (Nat.div_lt_self hm0 (by norm_num)) (n / 10) hdivlists
        omega

theorem splitAtSep_inj : ∀ (a1 a2 t1 t2 : List Char), '_' ∉ a1 → '_' ∉ a2 →
    a1 ++ '_' :: t1 = a2 ++ '_' :: t2 → a1 = a2 ∧ t1 = t2 := by
  intro a1
  induction a1 with
  | nil =>
      intro a2 t1 t2 _ h2 heq
      cases a2 with
      | nil => simpa using heq
      | cons c a2' =>
          simp only [List.nil_append, List.cons_append, List.cons.injEq] at heq
          exact absurd (heq.1 ▸ List.mem_cons_self _ _) h2
  | cons c a1' ih =>
      intro a2 t1 t2 h1 h2 heq
      cases a2 with
      | nil =>
          simp only [List.cons_append, List.nil_append, List.cons.injEq] at heq
          exact absurd (heq.1 ▸ List.mem_cons_self _ _) h1
      | cons d a2' =>
          simp only [List.cons_append, List.cons.injEq] at heq
          obtain ⟨rfl, htail⟩ := heq
          have hres := ih a2' t1 t2 (fun hm => h1 (List.mem_cons_of_mem _ hm))
            (fun hm => h2 (List.mem_cons_of_mem _ hm)) htail
          exact ⟨by rw [hres.1], hres.2⟩

/-! ## `send_control_request` (`query.rs:635-674`) and the control operations

The request-id is `format!("req_{}_{}", counter, unique_request_suffix())`; the
suffix (a hex rendering of time xor pid) is an opaque argument.  The `u64`
counter is modelled as `Nat` (its wraparound after `2^64` requests is not
reachable within a session).  The oneshot await with its 60-second timeout is
made explicit as an `AwaitOutcome`. -/

/-- `CONTROL_REQUEST_TIMEOUT` in seconds (`Duration::from_secs(60)`). -/
def CONTROL_REQUEST_TIMEOUT_SECS : Nat := 60

/-- A generated request id: `format!("req_{}_{}", counter, suffix)`. -/
def mkRequestId (counter : Nat) (suffix : String) : String :=
  "req_" ++ Nat.repr counter ++ "_" ++ suffix

theorem mkRequestId_inj (c1 c2 : Nat) (s1 s2 : String) (h : c1 ≠ c2) :
    mkRequestId c1 s1 ≠ mkRequestId c2 s2 := by
  intro heq
  have hdata := congrArg String.data heq
  simp only [mkRequestId, String.data_append] at hdata
  simp only [List.append_assoc, List.cons_append, List.nil_append, List.singleton_append,
    List.cons.injEq, true_and] at hdata
  have hsplit := splitAtSep_inj _ _ _ _ (digitsList_no_underscore c1)
    (digitsList_no_underscore c2) hdata
  exact h (digitsList_inj c1 c2 hsplit.1)

/-- Possible outcomes of awaiting the oneshot completion under
`timeout(CONTROL_REQUEST_TIMEOUT, receiver)`. -/
inductive AwaitOutcome where
  | responded (r : Except SdkError Json)
  | channelClosed
  | timedOut

/-- Request-counter and pending-map state of the orchestrator, as seen by
`send_control_request`. -/
structure ControlState where
  requestCounter : Nat
  pending : List (String × Nat)

/-- Result of one `send_control_request` call: its return value, the frames
passed to `transport.write`, and the updated state. -/
structure SendResult where
  result : Except SdkError Json
  written : List Json
  state : ControlState

/-- The control-request envelope `{type, request_id, request}`. -/
def controlRequestEnvelope (requestId : String) (request : Json) : Json :=
  .obj [("type", .str "control_request"), ("request_id", .str requestId),
    ("request", request)]

/-- `send_control_request`: require streaming mode; bump the counter; register
a completion handle under the fresh id; write the envelope (deregistering and
propagating on failure); await the completion, deregistering and returning a
timeout error if the 60-second bound elapses. -/
def send_control_request (isStreamingMode : Bool) (st : ControlState) (responder : Nat)
    (suffix : String) (writeOutcome : Except SdkError Unit) (awaited : AwaitOutcome)
    (request : Json) : SendResult :=
  if !isStreamingMode then
    { result := .error (.message "control requests require streaming mode"),
      written := [], state := st }
  else
    let counter := st.requestCounter + 1
    let requestId := mkRequestId counter suffix
    let pending1 := insertKey requestId responder st.pending
    let envelope := controlRequestEnvelope requestId request
    match writeOutcome with
    | .error e =>
        { result := .error e, written := [envelope],
          state := ⟨counter, removeKey requestId pending1⟩ }
    | .ok _ =>
        match awaited with
        | .responded r => { result := r, written := [envelope], state := ⟨counter, pending1⟩ }
        | .channelClosed =>
            { result := .error (.message "control response channel closed"),
              written := [envelope], state := ⟨counter, pending1⟩ }
        | .timedOut =>
            { result := .error .timeout, written := [envelope],
              state := ⟨counter, removeKey requestId pending1⟩ }

theorem removeKey_insertKey_fresh {α : Type} (k : String) (v : α) (l : List (String × α))
    (h : lookupKey k l = none) : removeKey k (insertKey k v l) = l := by
  induction l with
  | nil => simp [insertKey, removeKey]
  | cons p rest ih =>
      obtain ⟨a, w⟩ := p
      by_cases ha : a = k
      · rw [lookupKey, if_pos ha] at h
        exact absurd h (by simp)
      · rw [lookupKey, if_neg ha] at h
        rw [insertKey, if_neg ha, removeKey, if_neg ha, ih h]

/-- C5: the control-request timeout bound is the fixed 60 seconds; an
unanswered request (await times out) fails with the timeout error and its
registration is removed, restoring the pending map; a write failure likewise
deregisters and propagates the write error as the immediate result; and
request-ids are never reused — ids built from distinct counter values are
distinct strings (whatever the suffixes), so the ids generated by the
monotonically increasing per-session counter are pairwise distinct. -/
theorem control_request_timeout_and_unique_ids :
    CONTROL_REQUEST_TIMEOUT_SECS = 60
    ∧ (∀ (st : ControlState) (responder : Nat) (suffix : String) (request : Json),
        lookupKey (mkRequestId (st.requestCounter + 1) suffix) st.pending = none →
        send_control_request true st responder suffix (.ok ()) .timedOut request
          = ⟨.error .timeout,
              [controlRequestEnvelope (mkRequestId (st.requestCounter + 1) suffix) request],
              ⟨st.requestCounter + 1, st.pending⟩⟩)
    ∧ (∀ (st : ControlState) (responder : Nat) (suffix : String) (request : Json)
        (e : SdkError) (awaited : AwaitOutcome),
        lookupKey (mkRequestId (st.requestCounter + 1) suffix) st.pending = none →
        send_control_request true st responder suffix (.error e) awaited request
          = ⟨.error e,
              [controlRequestEnvelope (mkRequestId (st.requestCounter + 1) suffix) request],
              ⟨st.requestCounter + 1, st.pending⟩⟩)
    ∧ (∀ (c1 c2 : Nat) (s1 s2 : String), c1 ≠ c2 → mkRequestId c1 s1 ≠ mkRequestId c2 s2)
    ∧ (∀ (k : Nat) (suffixes : Nat → String),
        ((List.range k).map (fun i => mkRequestId (i + 1) (suffixes i))).Nodup) := by
  refine ⟨rfl, ?_, ?_, mkRequestId_inj, ?_⟩
  · intro st responder suffix request h
    simp [send_control_request, removeKey_insertKey_fresh _ _ _ h]
  · intro st responder suffix request e awaited h
    simp [send_control_request, removeKey_insertKey_fresh _ _ _ h]
  · intro k suffixes
    refine List.Nodup.map ?_ (List.nodup_range k)
    intro i j hij
    by_contra hne
    exact mkRequestId_inj (i + 1) (j + 1) (suffixes i) (suffixes j) (by omega) hij

/-- C5 witness: from a fresh session state, a timed-out request and a
failed-write request each produce the expected error with the registration
removed, and the first two generated ids (`req_1_..`, `req_2_..`) differ. -/
theorem control_request_timeout_and_unique_ids_witness :
    send_control_request true ⟨0, []⟩ 5 "ff" (.ok ()) .timedOut
        (.obj [("subtype", .str "interrupt")])
      = ⟨.error .timeout,
          [controlRequestEnvelope "req_1_ff" (.obj [("subtype", .str "interrupt")])],
          ⟨1, []⟩⟩
    ∧ send_control_request true ⟨0, []⟩ 5 "ff"
        (.error (.cliConnection "Failed to write to process stdin: broken pipe")) .timedOut
        (.obj [("subtype", .str "interrupt")])
      = ⟨.error (.cliConnection "Failed to write to process stdin: broken pipe"),
          [controlRequestEnvelope "req_1_ff" (.obj [("subtype", .str "interrupt")])],
          ⟨1, []⟩⟩
    ∧ mkRequestId 1 "ff" ≠ mkRequestId 2 "ff" := by
  refine ⟨?_, ?_, control_request_timeout_and_unique_ids.2.2.2.1 1 2 "ff" "ff" (by decide)⟩
  · exact control_request_timeout_and_unique_ids.2.1 ⟨0, []⟩ 5 "ff"
      (.obj [("subtype", .str "interrupt")]) rfl
  · exact control_request_timeout_and_unique_ids.2.2.1 ⟨0, []⟩ 5 "ff"
      (.obj [("subtype", .str "interrupt")])
      (.cliConnection "Failed to write to process stdin: broken pipe") .timedOut rfl

/-! ## Control operations requiring streaming mode (`query.rs:189-216`) -/

/-- `PermissionMode` (`src/permission.rs`). -/
inductive PermissionMode where
  | default
  | acceptEdits
  | plan
  | bypassPermissions

/-- `PermissionMode::as_str`. -/
def PermissionMode.as_str : PermissionMode → String
  | .default => "default"
  | .acceptEdits => "acceptEdits"
  | .plan => "plan"
  | .bypassPermissions => "bypassPermissions"

/-- `Query::interrupt`: a control request with subtype `interrupt`. -/
def interrupt (isStreamingMode : Bool) (st : ControlState) (responder : Nat) (suffix : String)
    (writeOutcome : Except SdkError Unit) (awaited : AwaitOutcome) : SendResult :=
  send_control_request isStreamingMode st responder suffix writeOutcome awaited
    (.obj [("subtype", .str "interrupt")])

/-- `Query::set_permission_mode`. -/
def set_permission_mode (mode : PermissionMode) (isStreamingMode : Bool) (st : ControlState)
    (responder : Nat) (suffix : String) (writeOutcome : Except SdkError Unit)
    (awaited : AwaitOutcome) : SendResult :=
  send_control_request isStreamingMode st responder suffix writeOutcome awaited
    (.obj [("subtype", .str "set_permission_mode"), ("mode", .str mode.as_str)])

/-- `Query::set_model`. -/
def set_model (model : Option String) (isStreamingMode : Bool) (st : ControlState)
    (responder : Nat) (suffix : String) (writeOutcome : Except SdkError Unit)
    (awaited : AwaitOutcome) : SendResult :=
  send_control_request isStreamingMode st responder suffix writeOutcome awaited
    (.obj [("subtype", .str "set_model"),
      ("model", match model with | some m => .str m | none => .null)])

/-- C7: with streaming (continuous-input) mode off, `interrupt`,
`set_permission_mode` and `set_model` each fail immediately with the
unsupported-operation error (`"control requests require streaming mode"`),
with no frame written to the transport and the pending map and counter left
untouched — regardless of the would-be write or await outcomes. -/
theorem control_ops_require_streaming_mode (st : ControlState) (responder : Nat)
    (suffix : String) (writeOutcome : Except SdkError Unit) (awaited : AwaitOutcome)
    (mode : PermissionMode) (model : Option String) :
    interrupt false st responder suffix writeOutcome awaited
        = ⟨.error (.message "control requests require streaming mode"), [], st⟩
      ∧ set_permission_mode mode false st responder suffix writeOutcome awaited
        = ⟨.error (.message "control requests require streaming mode"), [], st⟩
      ∧ set_model model false st responder suffix writeOutcome awaited
        = ⟨.error (.message "control requests require streaming mode"), [], st⟩ :=
  ⟨rfl, rfl, rfl⟩

/-! ## Control-request dispatch (`query.rs:358-633`, `src/mcp/mod.rs`)

Control-request handlers run in freshly spawned tasks.  User-supplied callback
behaviour (the permission callback, hook callbacks, MCP tool handlers) and
serde-derived (de)serialization of callback inputs are opaque to the
orchestrator and appear as function-valued environment fields. -/

/-- `McpToolContent` (`src/mcp/mod.rs`). -/
inductive McpToolContent where
  | text (text : String)
  | image (data : String) (mimeType : String)
  | json (value : Json)

/-- `McpToolCallResult`. -/
structure McpToolCallResult where
  content : List McpToolContent
  isError : Bool

/-- `McpToolInfo`. -/
structure McpToolInfo where
  name : String
  description : Option String
  inputSchema : Option Json

/-- `SdkMcpTool`: name, description, schema and the user-supplied handler. -/
structure SdkMcpTool where
  name : String
  description : String
  inputSchema : Json
  handler : List (String × Json) → Except SdkError McpToolCallResult

/-- `InProcessMcpServer` (`mcp/mod.rs:149-191`), the repository's only
`SdkMcpServer` implementation; its `version()` always returns `Some`. -/
structure InProcessMcpServer where
  name : String
  version : String
  tools : List SdkMcpTool

/-- `InProcessMcpServer::list_tools`. -/
def InProcessMcpServer.list_tools (server : InProcessMcpServer) :
    Except SdkError (List McpToolInfo) :=
  .ok (server.tools.map fun tool => ⟨tool.name, some tool.description, some tool.inputSchema⟩)

/-- `InProcessMcpServer::call_tool` (`mcp/mod.rs:179-190`): find the named
tool, or fail with `Tool '..' not found`. -/
def InProcessMcpServer.call_tool (server : InProcessMcpServer) (name : String)
    (arguments : List (String × Json)) : Except SdkError McpToolCallResult :=
  match server.tools.find? (fun tool => tool.name == name) with
  | none => .error (.message ("Tool '" ++ name ++ "' not found"))
  | some tool => tool.handler arguments

/-- `jsonrpc_error`. -/
def jsonrpc_error (id : Json) (code : Int) (message : String) : Json :=
  .obj [("jsonrpc", .str "2.0"), ("id", id),
    ("error", .obj [("code", .num code), ("message", .str message)])]

/-- `convert_mcp_tool_list`. -/
def convert_mcp_tool_list (tools : List McpToolInfo) : List Json :=
  tools.map fun tool =>
    .obj ([("name", .str tool.name)]
      ++ (match tool.description with
          | some d => [("description", .str d)]
          | none => [])
      ++ [("inputSchema", tool.inputSchema.getD (.obj []))])

/-- `convert_mcp_call_result`. -/
def convert_mcp_call_result (result : McpToolCallResult) : Json :=
  .obj ([("content", .arr (result.content.map fun item =>
      match item with
      | .text text => .obj [("type", .str "text"), ("text", .str text)]
      | .image data mimeType =>
          .obj [("type", .str "image"), ("data", .str data), ("mimeType", .str mimeType)]
      | .json value => .obj [("type", .str "json"), ("value", value)]))]
    ++ (if result.isError then [("is_error", .bool true)] else []))

/-- `build_mcp_initialize_response`. -/
def build_mcp_initialize_response (message : List (String × Json))
    (server : InProcessMcpServer) : Json :=
  .obj [("jsonrpc", .str "2.0"),
    ("id", (lookupKey "id" message).getD .null),
    ("result", .obj [("protocolVersion", .str "2024-11-05"),
      ("capabilities", .obj [("tools", .obj [])]),
      ("serverInfo", .obj [("name", .str server.name), ("version", .str server.version)])])]

/-- `PermissionResult` (`src/permission.rs`).  `updatedPermissions` entries
stand for the already-serialized `PermissionUpdate::to_control_payload`
values. -/
inductive PermissionResult where
  | allow (updatedInput : Option (List (String × Json))) (updatedPermissions : Option (List Json))
  | deny (message : String) (interrupt : Bool)

/-- `ToolPermissionContext` (the cancellation signal is always `None`). -/
structure ToolPermissionContext where
  suggestions : List Json

/-- A hook callback handle: raw input value and `tool_use_id` to the
serialized output value (user behaviour plus serde round-trip, opaque). -/
def HookCb : Type := Json → Option String → Json

/-- The callback environment the dispatcher reads: the optional permission
callback, the hook-callback table, the named in-process MCP servers, and the
opaque serde deserializers for permission suggestions and hook inputs. -/
structure DispatchEnv where
  canUseTool : Option (String → List (String × Json) → ToolPermissionContext → PermissionResult)
  hookCallbacks : List (String × HookCb)
  sdkMcpServers : List (String × InProcessMcpServer)
  parsePermissionUpdate : Json → Option Json
  parseHookInput : Json → Bool

/-- `deserialize_permission_suggestions`: keep the entries that deserialize. -/
def deserialize_permission_suggestions (parse : Json → Option Json) (entries : List Json) :
    List Json :=
  entries.filterMap parse

/-- `handle_permission_request` (`query.rs:406-472`). -/
def handle_permission_request (env : DispatchEnv) (payload : List (String × Json)) :
    Except SdkError Json :=
  match env.canUseTool with
  | none => .error (.message "canUseTool callback is not provided")
  | some callback =>
    match (lookupKey "tool_name" payload).bind Json.asStr with
    | none => .error (.message "permission request missing tool_name")
    | some toolName =>
      match (lookupKey "input" payload).bind Json.asObj with
      | none => .error (.message "permission request missing input")
      | some inputValue =>
        let suggestionsRaw := ((lookupKey "permission_suggestions" payload).bind
          Json.asArr).getD []
        let suggestions :=
          deserialize_permission_suggestions env.parsePermissionUpdate suggestionsRaw
        match callback toolName inputValue ⟨suggestions⟩ with
        | .allow updatedInput updatedPermissions =>
            let finalInput := updatedInput.getD inputValue
            .ok (.obj ([("behavior", .str "allow"), ("updatedInput", .obj finalInput)]
              ++ (match updatedPermissions with
                  | some updates => [("updatedPermissions", .arr updates)]
                  | none => [])))
        | .deny message interrupt =>
            .ok (.obj ([("behavior", .str "deny")]
              ++ (if message = "" then [] else [("message", .str message)])
              ++ (if interrupt then [("interrupt", .bool true)] else [])))

/-- `handle_hook_callback` (`query.rs:474-506`): look up the callback by its
opaque id, deserialize the input, invoke it, convert the output. -/
def handle_hook_callback (env : DispatchEnv) (payload : List (String × Json)) :
    Except SdkError Json :=
  match (lookupKey "callback_id" payload).bind Json.asStr with
  | none => .error (.message "hook callback missing callback_id")
  | some callbackId =>
    match lookupKey callbackId env.hookCallbacks with
    | none => .error (.message ("No hook callback found for ID: " ++ callbackId))
    | some callback =>
        let inputValue := (lookupKey "input" payload).getD (.obj [])
        if env.parseHookInput inputValue then
          let toolUseId := (lookupKey "tool_use_id" payload).bind Json.asStr
          .ok (convert_hook_output_for_cli (callback inputValue toolUseId))
        else
          .error (.json "invalid hook input")

/-- `mcp_list_tools` (`query.rs:549-569`). -/
def mcp_list_tools (message : List (String × Json)) (server : InProcessMcpServer) :
    Except SdkError Json :=
  let idValue := (lookupKey "id" message).getD .null
  match server.list_tools with
  | .ok tools =>
      .ok (.obj [("jsonrpc", .str "2.0"), ("id", idValue),
        ("result", .obj [("tools", .arr (convert_mcp_tool_list tools))])])
  | .error err => .ok (jsonrpc_error idValue (-32603) err.toMessage)

/-- `mcp_call_tool` (`query.rs:571-605`): a handler failure or an unknown tool
name is caught and wrapped as a JSON-RPC error object with code `-32603`. -/
def mcp_call_tool (message : List (String × Json)) (server : InProcessMcpServer) :
    Except SdkError Json :=
  let idValue := (lookupKey "id" message).getD .null
  let params := ((lookupKey "params" message).bind Json.asObj).getD []
  match (lookupKey "name" params).bind Json.asStr with
  | none => .error (.message "tools/call missing name parameter")
  | some toolName =>
    let arguments := ((lookupKey "arguments" params).bind Json.asObj).getD []
    match server.call_tool toolName arguments with
    | .ok result =>
        .ok (.obj [("jsonrpc", .str "2.0"), ("id", idValue),
          ("result", convert_mcp_call_result result)])
    | .error err => .ok (jsonrpc_error idValue (-32603) err.toMessage)

/-- `handle_mcp_message` (`query.rs:508-547`). -/
def handle_mcp_message (env : DispatchEnv) (payload : List (String × Json)) :
    Except SdkError Json :=
  match (lookupKey "server_name" payload).bind Json.asStr with
  | none => .error (.message "MCP request missing server_name")
  | some serverName =>
    match lookupKey "message" payload with
    | none => .error (.message "MCP request missing message payload")
    | some messageValue =>
      match messageValue.asObj with
      | none => .error (.message "MCP message must be an object")
      | some message =>
        match lookupKey serverName env.sdkMcpServers with
        | none => .error (.message ("Server '" ++ serverName ++ "' not found"))
        | some server =>
          match (lookupKey "method" message).bind Json.asStr with
          | none => .error (.message "MCP message missing method")
          | some method =>
            match method with
            | "initialize" => .ok (build_mcp_initialize_response message server)
            | "tools/list" => mcp_list_tools message server
            | "tools/call" => mcp_call_tool message server
            | "notifications/initialized" =>
                .ok (.obj [("jsonrpc", .str "2.0"), ("result", .obj [])])
            | other =>
                .ok (jsonrpc_error ((lookupKey "id" message).getD .null) (-32601)
                  ("Method '" ++ other ++ "' not found"))

/-- `dispatch_control_request` (`query.rs:387-404`). -/
def dispatch_control_request (env : DispatchEnv) (payload : List (String × Json)) :
    Except SdkError Json :=
  match (lookupKey "subtype" payload).bind Json.asStr with
  | none => .error (.message "control request missing subtype")
  | some subtype =>
    match subtype with
    | "can_use_tool" => handle_permission_request env payload
    | "hook_callback" => handle_hook_callback env payload
    | "mcp_message" => handle_mcp_message env payload
    | other => .error (.message ("unsupported control request subtype: " ++ other))

/-- `send_success_response` envelope (`query.rs:607-621`). -/
def send_success_response (requestId : String) (payload : Json) : Json :=
  .obj [("type", .str "control_response"),
    ("response", .obj [("subtype", .str "success"), ("request_id", .str requestId),
      ("response", payload)])]

/-- `send_error_response` envelope (`query.rs:623-633`). -/
def send_error_response (requestId : String) (message : String) : Json :=
  .obj [("type", .str "control_response"),
    ("response", .obj [("subtype", .str "error"), ("request_id", .str requestId),
      ("error", .str message)])]

/-- `process_control_request` (`query.rs:358-385`): the body of the spawned
handler task.  Returns the single control-response frame it writes back, or
`none` when it returns without writing (absent/non-string `request_id`). -/
def process_control_request (env : DispatchEnv) (request : Json) : Option Json :=
  match jsonGetStr request "request_id" with
  | none => none
  | some requestId =>
    match (request.get? "request").bind Json.asObj with
    | none =>
        some (send_error_response requestId "Control request missing 'request' field")
    | some payload =>
      match dispatch_control_request env payload with
      | .ok response => some (send_success_response requestId response)
      | .error err => some (send_error_response requestId err.toMessage)

theorem read_loop_control_request_continues (raw : Json)
    (rest : List (Except SdkError Json)) (pending : List (String × Nat))
    (hft : frameType raw = some "control_request") :
    read_loop (.ok raw :: rest) pending =
      { read_loop rest pending with
        spawned := raw :: (read_loop rest pending).spawned } := by
  simp [read_loop, hft]

/-- C6: an error while servicing a single control request is local.  Any
dispatch failure is answered with exactly one error control-response tagged
with the original request id; a permission request without a registered
permission callback, a `hook_callback` with an unknown callback id, and an
`mcp_message` naming an unknown server each produce such a dispatch error with
the corresponding message; `tools/call` naming an unregistered tool is caught
inside the MCP handler and answered as a JSON-RPC error object with code
`-32603` (inside a success control-response), as is a tool handler that fails;
and a `control_request` frame
never halts the read loop or the content queue — it is handed to a spawned
task and the loop continues unchanged. -/
theorem control_request_errors_are_local :
    (∀ (env : DispatchEnv) (rid : String) (request : Json)
        (payload : List (String × Json)) (err : SdkError),
      jsonGetStr request "request_id" = some rid →
      (request.get? "request").bind Json.asObj = some payload →
      dispatch_control_request env payload = .error err →
      process_control_request env request = some (send_error_response rid err.toMessage))
    ∧ (∀ (env : DispatchEnv) (payload : List (String × Json)),
      env.canUseTool = none →
      (lookupKey "subtype" payload).bind Json.asStr = some "can_use_tool" →
      dispatch_control_request env payload
        = .error (.message "canUseTool callback is not provided"))
    ∧ (∀ (env : DispatchEnv) (payload : List (String × Json)) (cid : String),
      (lookupKey "subtype" payload).bind Json.asStr = some "hook_callback" →
      (lookupKey "callback_id" payload).bind Json.asStr = some cid →
      lookupKey cid env.hookCallbacks = none →
      dispatch_control_request env payload
        = .error (.message ("No hook callback found for ID: " ++ cid)))
    ∧ (∀ (env : DispatchEnv) (payload : List (String × Json)) (serverName : String)
        (messageValue : Json) (message : List (String × Json)),
      (lookupKey "subtype" payload).bind Json.asStr = some "mcp_message" →
      (lookupKey "server_name" payload).bind Json.asStr = some serverName →
      lookupKey "message" payload = some messageValue →
      messageValue.asObj = some message →
      lookupKey serverName env.sdkMcpServers = none →
      dispatch_control_request env payload
        = .error (.message ("Server '" ++ serverName ++ "' not found")))
    ∧ (∀ (server : InProcessMcpServer) (message params : List (String × Json))
        (toolName : String),
      (lookupKey "params" message).bind Json.asObj = some params →
      (lookupKey "name" params).bind Json.asStr = some toolName →
      server.tools.find? (fun tool => tool.name == toolName) = none →
      mcp_call_tool message server
        = .ok (jsonrpc_error ((lookupKey "id" message).getD .null) (-32603)
            ("Tool '" ++ toolName ++ "' not found")))
    ∧ (∀ (server : InProcessMcpServer) (message params : List (String × Json))
        (toolName : String) (tool : SdkMcpTool) (err : SdkError),
      (lookupKey "params" message).bind Json.asObj = some params →
      (lookupKey "name" params).bind Json.asStr = some toolName →
      server.tools.find? (fun t => t.name == toolName) = some tool →
      tool.handler (((lookupKey "arguments" params).bind Json.asObj).getD []) = .error err →
      mcp_call_tool message server
        = .ok (jsonrpc_error ((lookupKey "id" message).getD .null) (-32603) err.toMessage))
    ∧ (∀ (raw : Json) (rest : List (Except SdkError Json)) (pending : List (String × Nat)),
      frameType raw = some "control_request" →
      read_loop (.ok raw :: rest) pending =
        { read_loop rest pending with
          spawned := raw :: (read_loop rest pending).spawned }) := by
  refine ⟨?_, ?_, ?_, ?_, ?_, ?_, read_loop_control_request_continues⟩
  · intro env rid request payload err h1 h2 h3
    unfold process_control_request
    simp [h1, h2, h3]
  · intro env payload h1 h2
    unfold dispatch_control_request handle_permission_request
    simp [h1, h2]
  · intro env payload cid h1 h2 h3
    unfold dispatch_control_request handle_hook_callback
    simp [h1, h2, h3]
  · intro env payload serverName messageValue message h1 h2 h3 h4 h5
    unfold dispatch_control_request handle_mcp_message
    simp [h1, h2, h3, h4, h5]
  · intro server message params toolName h1 h2 h3
    unfold mcp_call_tool InProcessMcpServer.call_tool
    simp [h1, h2, h3, SdkError.toMessage]
  · intro server message params toolName tool err h1 h2 h3 h4
    unfold mcp_call_tool InProcessMcpServer.call_tool
    simp [h1, h2, h3, h4]

/-- C6 witness: with no permission callback, no hook callbacks and no servers,
a `can_use_tool` request `r1` is answered with exactly one error
control-response for `r1`; an unknown hook-callback id and an unknown server
produce their dispatch errors; `tools/call` for the unregistered tool `mul` on
a one-tool server yields the JSON-RPC `-32603` error object; and spawning a
control request leaves the read loop result otherwise unchanged. -/
theorem control_request_errors_are_local_witness :
    process_control_request ⟨none, [], [], fun _ => none, fun _ => false⟩
        (.obj [("type", .str "control_request"), ("request_id", .str "r1"),
          ("request", .obj [("subtype", .str "can_use_tool")])])
      = some (send_error_response "r1" "canUseTool callback is not provided")
    ∧ dispatch_control_request ⟨none, [], [], fun _ => none, fun _ => false⟩
        [("subtype", .str "hook_callback"), ("callback_id", .str "hook_9")]
      = .error (.message "No hook callback found for ID: hook_9")
    ∧ dispatch_control_request ⟨none, [], [], fun _ => none, fun _ => false⟩
        [("subtype", .str "mcp_message"), ("server_name", .str "srv"),
          ("message", .obj [("method", .str "tools/list")])]
      = .error (.message "Server 'srv' not found")
    ∧ mcp_call_tool [("id", .num 7), ("params", .obj [("name", .str "mul")])]
        ⟨"calc", "1.0.0", [⟨"add", "Adds numbers", .obj [],
          fun _ => .ok ⟨[.text "ok"], false⟩⟩]⟩
      = .ok (jsonrpc_error (.num 7) (-32603) "Tool 'mul' not found")
    ∧ mcp_call_tool [("id", .num 8), ("params", .obj [("name", .str "boomer")])]
        ⟨"calc", "1.0.0", [⟨"boomer", "Always fails", .obj [],
          fun _ => .error (.message "boom")⟩]⟩
      = .ok (jsonrpc_error (.num 8) (-32603) "boom")
    ∧ read_loop [.ok (.obj [("type", .str "control_request"), ("request_id", .str "r1"),
          ("request", .obj [("subtype", .str "can_use_tool")])])] []
      = ⟨[], [.obj [("type", .str "control_request"), ("request_id", .str "r1"),
          ("request", .obj [("subtype", .str "can_use_tool")])]], [], []⟩ := by
  refine ⟨?_, ?_, ?_, ?_, ?_, ?_⟩
  · exact control_request_errors_are_local.1 ⟨none, [], [], fun _ => none, fun _ => false⟩
      "r1" (.obj [("type", .str "control_request"), ("request_id", .str "r1"),
        ("request", .obj [("subtype", .str "can_use_tool")])])
      [("subtype", .str "can_use_tool")] (.message "canUseTool callback is not provided")
      rfl rfl (control_request_errors_are_local.2.1
        ⟨none, [], [], fun _ => none, fun _ => false⟩ [("subtype", .str "can_use_tool")]
        rfl rfl)
  · exact control_request_errors_are_local.2.2.1
      ⟨none, [], [], fun _ => none, fun _ => false⟩
      [("subtype", .str "hook_callback"), ("callback_id", .str "hook_9")] "hook_9"
      rfl rfl rfl
  · exact control_request_errors_are_local.2.2.2.1
      ⟨none, [], [], fun _ => none, fun _ => false⟩
      [("subtype", .str "mcp_message"), ("server_name", .str "srv"),
        ("message", .obj [("method", .str "tools/list")])]
      "srv" (.obj [("method", .str "tools/list")]) [("method", .str "tools/list")]
      rfl rfl rfl rfl rfl
  · exact control_request_errors_are_local.2.2.2.2.1
      ⟨"calc", "1.0.0", [⟨"add", "Adds numbers", .obj [],
        fun _ => .ok ⟨[.text "ok"], false⟩⟩]⟩
      [("id", .num 7), ("params", .obj [("name", .str "mul")])]
      [("name", .str "mul")] "mul" rfl rfl rfl
  · exact control_request_errors_are_local.2.2.2.2.2.1
      ⟨"calc", "1.0.0", [⟨"boomer", "Always fails", .obj [],
        fun _ => .error (.message "boom")⟩]⟩
      [("id", .num 8), ("params", .obj [("name", .str "boomer")])]
      [("name", .str "boomer")] "boomer"
      ⟨"boomer", "Always fails", .obj [], fun _ => .error (.message "boom")⟩
      (.message "boom") rfl rfl rfl rfl
  · have := control_request_errors_are_local.2.2.2.2.2.2
      (.obj [("type", .str "control_request"), ("request_id", .str "r1"),
        ("request", .obj [("subtype", .str "can_use_tool")])]) [] [] rfl
    rw [this]
    rfl

/-- C10: a `control_request` frame whose top-level `request_id` is absent or
not a string is ignored entirely: the spawned handler returns without writing
any control-response back (neither success nor error), and the read loop —
which hands every `control_request` frame to a spawned task and continues
regardless — and the content-message queue are unaffected. -/
theorem control_request_without_id_is_ignored :
    (∀ (env : DispatchEnv) (request : Json),
      jsonGetStr request "request_id" = none →
      process_control_request env request = none)
    ∧ (∀ (raw : Json) (rest : List (Except SdkError Json)) (pending : List (String × Nat)),
      frameType raw = some "control_request" →
      read_loop (.ok raw :: rest) pending =
        { read_loop rest pending with
          spawned := raw :: (read_loop rest pending).spawned }) := by
  refine ⟨?_, read_loop_control_request_continues⟩
  intro env request h
  unfold process_control_request
  simp [h]

/-- C10 witness: a control request whose `request_id` is the number `5` (not a
string) produces no response frame at all, and the read loop just records the
frame as spawned and moves on. -/
theorem control_request_without_id_is_ignored_witness :
    process_control_request ⟨none, [], [], fun _ => none, fun _ => false⟩
        (.obj [("type", .str "control_request"), ("request_id", .num 5),
          ("request", .obj [("subtype", .str "interrupt")])])
      = none
    ∧ read_loop [.ok (.obj [("type", .str "control_request"), ("request_id", .num 5),
          ("request", .obj [("subtype", .str "interrupt")])])] []
      = ⟨[], [.obj [("type", .str "control_request"), ("request_id", .num 5),
          ("request", .obj [("subtype", .str "interrupt")])]], [], []⟩ := by
  refine ⟨control_request_without_id_is_ignored.1
    ⟨none, [], [], fun _ => none, fun _ => false⟩
    (.obj [("type", .str "control_request"), ("request_id", .num 5),
      ("request", .obj [("subtype", .str "interrupt")])]) rfl, ?_⟩
  have := control_request_without_id_is_ignored.2
    (.obj [("type", .str "control_request"), ("request_id", .num 5),
      ("request", .obj [("subtype", .str "interrupt")])]) [] [] rfl
  rw [this]
  rfl

/-! ## Hook configuration (`prepare_hooks_configuration`, `query.rs:676-737`)

The caller's `HashMap<HookEvent, Vec<HookMatcher>>` is taken by value and
drained; the drain order of the hash map is abstracted as the order of the
given association list.  Callback ids are `format!("hook_{}",
next_callback_id.fetch_add(1))`. -/

/-- `HookEvent` (`src/hooks.rs`). -/
inductive HookEvent where
  | preToolUse
  | postToolUse
  | userPromptSubmit
  | stop
  | subagentStop
  | preCompact

/-- `HookEvent::as_str`. -/
def HookEvent.as_str : HookEvent → String
  | .preToolUse => "PreToolUse"
  | .postToolUse => "PostToolUse"
  | .userPromptSubmit => "UserPromptSubmit"
  | .stop => "Stop"
  | .subagentStop => "SubagentStop"
  | .preCompact => "PreCompact"

/-- `HookMatcher` (`src/hooks.rs`). -/
structure HookMatcher where
  matcher : Option Json
  hooks : List HookCb

/-- The inner `for hook in matcher.hooks.drain(..)` loop: mint a fresh id per
callback, insert it into the lookup table, and collect the ids. -/
def assignCallbackIds : Nat → List (String × HookCb) → List HookCb →
    List Json × List (String × HookCb) × Nat
  | startId, table, [] => ([], table, startId)
  | startId, table, hook :: rest =>
      let id := "hook_" ++ Nat.repr startId
      let r := assignCallbackIds (startId + 1) (insertKey id hook table) rest
      (Json.str id :: r.1, r.2.1, r.2.2)

/-- The `for matcher in matchers` loop: skip matchers with no callbacks, build
a `{matcher?, hookCallbackIds}` entry for each of the rest. -/
def buildMatcherEntries : Nat → List (String × HookCb) → List HookMatcher →
    List Json × List (String × HookCb) × Nat
  | startId, table, [] => ([], table, startId)
  | startId, table, matcher :: rest =>
      if matcher.hooks.isEmpty then buildMatcherEntries startId table rest
      else
        let a := assignCallbackIds startId table matcher.hooks
        if a.1.isEmpty then buildMatcherEntries a.2.2 a.2.1 rest
        else
          let entry := Json.obj ((match matcher.matcher with
            | some m => [("matcher", m)]
            | none => []) ++ [("hookCallbackIds", .arr a.1)])
          let r := buildMatcherEntries a.2.2 a.2.1 rest
          (entry :: r.1, r.2.1, r.2.2)

/-- The outer `for (event, matchers)` loop: an event whose matchers all end up
empty is omitted from the wire structure. -/
def buildEventEntries : Nat → List (String × HookCb) → List (HookEvent × List HookMatcher) →
    List (String × Json) × List (String × HookCb) × Nat
  | startId, table, [] => ([], table, startId)
  | startId, table, (event, matchers) :: rest =>
      if matchers.isEmpty then buildEventEntries startId table rest
      else
        let m := buildMatcherEntries startId table matchers
        if m.1.isEmpty then buildEventEntries m.2.2 m.2.1 rest
        else
          let r := buildEventEntries m.2.2 m.2.1 rest
          ((event.as_str, Json.arr m.1) :: r.1, r.2.1, r.2.2)

/-- `prepare_hooks_configuration`: consume the registration table once; the
result is the wire structure keyed by event name (or "no hooks"), the updated
callback lookup table, and the next callback counter. -/
def prepare_hooks_configuration (startId : Nat) (table : List (String × HookCb))
    (hooks : Option (List (HookEvent × List HookMatcher))) :
    Option Json × List (String × HookCb) × Nat :=
  match hooks with
  | none => (none, table, startId)
  | some hookMap =>
    if hookMap.isEmpty then (none, table, startId)
    else
      let r := buildEventEntries startId table hookMap
      (if r.1.isEmpty then none else some (.obj r.1), r.2.1, r.2.2)

/-- The ids minted for `n` callbacks starting from counter value `startId`. -/
def specIds (startId n : Nat) : List String :=
  (List.range n).map (fun i => "hook_" ++ Nat.repr (startId + i))

theorem hookCallbackId_inj (j k : Nat) (h : j ≠ k) :
    ("hook_" ++ Nat.repr j) ≠ ("hook_" ++ Nat.repr k) := by
  intro heq
  have hdata := congrArg String.data heq
  simp only [String.data_append, List.cons_append, List.nil_append,
    List.cons.injEq, true_and] at hdata
  exact h (digitsList_inj j k hdata)

theorem specIds_nodup (startId n : Nat) : (specIds startId n).Nodup := by
  refine List.Nodup.map ?_ (List.nodup_range n)
  intro i j hij
  by_contra hne
  exact hookCallbackId_inj (startId + i) (startId + j) (by omega) hij

theorem specIds_succ (startId n : Nat) :
    specIds startId (n + 1) = ("hook_" ++ Nat.repr startId) :: specIds (startId + 1) n := by
  unfold specIds
  rw [List.range_succ_eq_map, List.map_cons, List.map_map]
  congr 1
  apply List.map_congr_left
  intro i _
  simp only [Function.comp_apply]
  congr 2
  omega

theorem assignCallbackIds_spec : ∀ (cbs : List HookCb) (startId : Nat)
    (table : List (String × HookCb)),
    (∀ j, startId ≤ j → ("hook_" ++ Nat.repr j) ∉ table.map Prod.fst) →
    assignCallbackIds startId table cbs
      = ((specIds startId cbs.length).map Json.str,
         table ++ (specIds startId cbs.length).zip cbs,
         startId + cbs.length) := by
  intro cbs
  induction cbs with
  | nil =>
      intro startId table _
      simp [assignCallbackIds, specIds]
  | cons cb rest ih =>
      intro startId table h
      have hfresh : ∀ j, startId + 1 ≤ j →
          ("hook_" ++ Nat.repr j)
            ∉ (insertKey ("hook_" ++ Nat.repr startId) cb table).map Prod.fst := by
        intro j hj
        rw [insertKey_not_mem _ _ _ (h startId le_rfl)]
        simp only [List.map_append, List.mem_append, List.map_cons, List.map_nil,
          List.mem_singleton]
        rintro (hm | hm)
        · exact h j (by omega) hm
        · exact hookCallbackId_inj j startId (by omega) hm
      rw [assignCallbackIds, ih (startId + 1) _ hfresh]
      rw [insertKey_not_mem _ _ _ (h startId le_rfl)]
      simp only [List.length_cons, specIds_succ, List.zip_cons_cons, List.map_cons,
        List.append_assoc, List.cons_append, List.nil_append, Prod.mk.injEq]
      refine ⟨trivial, trivial, by omega⟩

theorem buildMatcherEntries_single (startId : Nat) (table : List (String × HookCb))
    (mv : Option Json) (cbs : List HookCb) (hne : cbs ≠ [])
    (h : ∀ j, startId ≤ j → ("hook_" ++ Nat.repr j) ∉ table.map Prod.fst) :
    buildMatcherEntries startId table [⟨mv, cbs⟩]
      = ([Json.obj ((match mv with
            | some m => [("matcher", m)]
            | none => []) ++ [("hookCallbackIds",
              .arr ((specIds startId cbs.length).map Json.str))])],
         table ++ (specIds startId cbs.length).zip cbs,
         startId + cbs.length) := by
  rw [buildMatcherEntries]
  have hempty : cbs.isEmpty = false := by
    cases cbs with
    | nil => exact absurd rfl hne
    | cons c cs => rfl
  simp only [hempty, Bool.false_eq_true, if_false, reduceIte]
  rw [assignCallbackIds_spec cbs startId table h]
  have hids : ((specIds startId cbs.length).map Json.str).isEmpty = false := by
    cases cbs with
    | nil => exact absurd rfl hne
    | cons c cs => simp [specIds_succ]
  simp only [hids, Bool.false_eq_true, if_false, reduceIte]
  rw [buildMatcherEntries]

theorem lookupKey_specIds_zip : ∀ (cbs : List HookCb) (startId i : Nat)
    (hi : i < cbs.length),
    lookupKey ("hook_" ++ Nat.repr (startId + i)) ((specIds startId cbs.length).zip cbs)
      = some (cbs.get ⟨i, hi⟩) := by
  intro cbs
  induction cbs with
  | nil => intro startId i hi; simp at hi
  | cons cb rest ih =>
      intro startId i hi
      cases i with
      | zero =>
          show lookupKey ("hook_" ++ Nat.repr (startId + 0))
              ((specIds startId (rest.length + 1)).zip (cb :: rest)) = some cb
          rw [specIds_succ, List.zip_cons_cons, lookupKey, if_pos (by rw [Nat.add_zero])]
      | succ i' =>
          have hi' : i' < rest.length := Nat.lt_of_succ_lt_succ hi
          show lookupKey ("hook_" ++ Nat.repr (startId + (i' + 1)))
              ((specIds startId (rest.length + 1)).zip (cb :: rest))
            = some (rest.get ⟨i', hi'⟩)
          rw [specIds_succ, List.zip_cons_cons, lookupKey,
            if_neg (fun hh => hookCallbackId_inj startId (startId + (i' + 1)) (by omega) hh)]
          have harith : startId + (i' + 1) = (startId + 1) + i' := by omega
          rw [harith]
          exact ih (startId + 1) i' hi'

/-- C8: hook-configuration serialization mints a fresh, distinct opaque id per
registered callback and inserts it into the callback lookup table.  For one
event with one matcher holding `N` callbacks (and the initially empty table),
the wire structure carries exactly the ids `hook_c, …, hook_(c+N-1)` — which
are pairwise distinct — the table maps the `i`-th id to exactly the `i`-th
callback, and dispatching a `hook_callback` request with a known id invokes
exactly the callback stored under that id; a matcher with zero callbacks is
skipped (also among other matchers), an event left with zero matchers is
omitted, and when nothing remains after filtering (or no hooks were given) the
result is "no hooks" (`none`). -/
theorem hook_registration_ids_distinct_and_dispatch :
    (∀ (startId : Nat) (ev : HookEvent) (mv : Option Json) (cbs : List HookCb),
      cbs ≠ [] →
      prepare_hooks_configuration startId [] (some [(ev, [⟨mv, cbs⟩])])
        = (some (.obj [(ev.as_str, .arr [Json.obj ((match mv with
              | some m => [("matcher", m)]
              | none => []) ++ [("hookCallbackIds",
                .arr ((specIds startId cbs.length).map Json.str))])])]),
           (specIds startId cbs.length).zip cbs,
           startId + cbs.length))
    ∧ (∀ (startId : Nat) (ev : HookEvent) (mv1 mv2 : Option Json) (cbs : List HookCb),
      cbs ≠ [] →
      prepare_hooks_configuration startId [] (some [(ev, [⟨mv1, []⟩, ⟨mv2, cbs⟩])])
        = prepare_hooks_configuration startId [] (some [(ev, [⟨mv2, cbs⟩])]))
    ∧ (∀ startId n, (specIds startId n).Nodup)
    ∧ (∀ (cbs : List HookCb) (startId i : Nat) (hi : i < cbs.length),
      lookupKey ("hook_" ++ Nat.repr (startId + i)) ((specIds startId cbs.length).zip cbs)
        = some (cbs.get ⟨i, hi⟩))
    ∧ (∀ (env : DispatchEnv) (payload : List (String × Json)) (cid : String)
        (cb : HookCb) (input : Json),
      (lookupKey "callback_id" payload).bind Json.asStr = some cid →
      lookupKey cid env.hookCallbacks = some cb →
      lookupKey "input" payload = some input →
      env.parseHookInput input = true →
      handle_hook_callback env payload
        = .ok (convert_hook_output_for_cli
            (cb input ((lookupKey "tool_use_id" payload).bind Json.asStr))))
    ∧ (∀ (startId : Nat) (table : List (String × HookCb)) (ev : HookEvent)
        (mv : Option Json),
      prepare_hooks_configuration startId table none = (none, table, startId)
      ∧ prepare_hooks_configuration startId table (some []) = (none, table, startId)
      ∧ prepare_hooks_configuration startId table (some [(ev, [])]) = (none, table, startId)
      ∧ prepare_hooks_configuration startId table (some [(ev, [⟨mv, []⟩])])
          = (none, table, startId)) := by
  have hsingle : ∀ (startId : Nat) (ev : HookEvent) (mv : Option Json) (cbs : List HookCb),
      cbs ≠ [] →
      prepare_hooks_configuration startId [] (some [(ev, [⟨mv, cbs⟩])])
        = (some (.obj [(ev.as_str, .arr [Json.obj ((match mv with
              | some m => [("matcher", m)]
              | none => []) ++ [("hookCallbackIds",
                .arr ((specIds startId cbs.length).map Json.str))])])]),
           (specIds startId cbs.length).zip cbs,
           startId + cbs.length) := by
    intro startId ev mv cbs hne
    rw [prepare_hooks_configuration]
    simp only [List.isEmpty_cons, Bool.false_eq_true, if_false, reduceIte]
    rw [buildEventEntries]
    simp only [List.isEmpty_cons, Bool.false_eq_true, if_false, reduceIte]
    rw [buildMatcherEntries_single startId [] mv cbs hne (by intro j _; simp)]
    simp only [List.nil_append]
    rw [buildEventEntries]
    simp
  refine ⟨hsingle, ?_, specIds_nodup, lookupKey_specIds_zip, ?_, ?_⟩
  · intro startId ev mv1 mv2 cbs hne
    have hskip : buildMatcherEntries startId [] [⟨mv1, []⟩, ⟨mv2, cbs⟩]
        = buildMatcherEntries startId [] [⟨mv2, cbs⟩] := by
      rw [buildMatcherEntries]
      simp
    have hevent : buildEventEntries startId [] [(ev, [⟨mv1, []⟩, ⟨mv2, cbs⟩])]
        = buildEventEntries startId [] [(ev, [⟨mv2, cbs⟩])] := by
      conv_lhs => rw [buildEventEntries]
      conv_rhs => rw [buildEventEntries]
      simp only [List.isEmpty_cons, Bool.false_eq_true, if_false, reduceIte]
      rw [hskip]
    rw [prepare_hooks_configuration, prepare_hooks_configuration]
    simp only [List.isEmpty_cons, Bool.false_eq_true, if_false, reduceIte]
    rw [hevent]
  · intro env payload cid cb input h1 h2 h3 h4
    unfold handle_hook_callback
    simp [h1, h2, h3, h4]
  · intro startId table ev mv
    refine ⟨rfl, rfl, rfl, rfl⟩

/-- C8 witness: registering three callbacks under `PreToolUse` in one matcher
yields the three distinct ids `hook_0, hook_1, hook_2` in the wire structure,
a lookup table mapping each id to its callback, and a `hook_callback` request
for `hook_1` invokes exactly the second callback. -/
theorem hook_registration_ids_distinct_and_dispatch_witness :
    prepare_hooks_configuration 0 [] (some [(.preToolUse,
        [⟨none, [fun _ _ => Json.null, fun i _ => i, fun _ _ => Json.bool true]⟩])])
      = (some (.obj [("PreToolUse", .arr [.obj [("hookCallbackIds",
            .arr [.str "hook_0", .str "hook_1", .str "hook_2"])]])]),
         [("hook_0", fun _ _ => Json.null), ("hook_1", fun i _ => i),
          ("hook_2", fun _ _ => Json.bool true)],
         3)
    ∧ (["hook_0", "hook_1", "hook_2"] : List String).Nodup
    ∧ lookupKey "hook_1"
        [("hook_0", (fun _ _ => Json.null : HookCb)), ("hook_1", fun i _ => i),
         ("hook_2", fun _ _ => Json.bool true)] = some (fun i _ => i)
    ∧ handle_hook_callback
        ⟨none, [("hook_0", fun _ _ => Json.null), ("hook_1", fun i _ => i),
          ("hook_2", fun _ _ => Json.bool true)], [], fun _ => none, fun _ => true⟩
        [("subtype", .str "hook_callback"), ("callback_id", .str "hook_1"),
         ("input", .str "x")]
      = .ok (.str "x") := by
  refine ⟨?_, by decide, rfl, ?_⟩
  · rw [hook_registration_ids_distinct_and_dispatch.1 0 .preToolUse none
      [fun _ _ => Json.null, fun i _ => i, fun _ _ => Json.bool true] (by simp)]
    rfl
  · rw [hook_registration_ids_distinct_and_dispatch.2.2.2.2.1
      ⟨none, [("hook_0", fun _ _ => Json.null), ("hook_1", fun i _ => i),
        ("hook_2", fun _ _ => Json.bool true)], [], fun _ => none, fun _ => true⟩
      [("subtype", .str "hook_callback"), ("callback_id", .str "hook_1"),
       ("input", .str "x")]
      "hook_1" (fun i _ => i) (.str "x") rfl rfl rfl rfl]
    rw [convert_hook_output_for_cli]

end ClaudeSdk
